import Mathlib

/-!
# Verification of the Intervals.icu MCP server against its specification

Shallow embedding of the Python sources under `src/intervals_mcp_server/`
(tools, `utils/schemas.py`, `utils/formatting.py`, `utils/types.py`) and
proofs settling the claims C1–C10.

Modelling conventions:
* Python runtime values (parsed JSON and function arguments) are modelled by
  the inductive type `Val`.  Python `None` is `Val.none`; missing dictionary
  keys and stored `None` both read back as `Val.none` through `.get`, while
  key *presence* (`in`) is tracked by the association list itself.
  Numeric values are modelled as integers (`Val.int`); IEEE floating point
  is out of scope of the embedding.
* Exceptions are modelled with `Except PyExc`.  The tool functions in the
  source catch exactly `(TypeError, KeyError, ValueError)`; `catchTKV`
  reproduces that.  An `AttributeError` (raised by calling `.get` on an
  object that is not a `dict`) is *not* caught by those handlers.
* Each tool takes the upstream response(s) as explicit arguments (the HTTP
  client `api/client.py` is not part of `src/`) and returns both its result
  (string or uncaught exception) and the list of upstream requests it issued.
* `resolve_athlete_id` / `resolve_date_params` live in `utils/validation.py`,
  which is also absent from `src/`; the tools here take the already-resolved
  athlete id and date strings, which is the boundary after that helper.
-/

set_option maxHeartbeats 1600000
set_option maxRecDepth 4096

/-- A Python runtime value as used by this code base: `None`, booleans,
numbers (modelled as integers), strings, lists, and string-keyed dicts
(association lists in insertion order, without duplicate keys). -/
inductive Val where
  | none
  | bool (b : Bool)
  | int (n : Int)
  | str (s : String)
  | list (elems : List Val)
  | dict (entries : List (String × Val))

/-- Entries of a Python dict (insertion ordered). -/
abbrev Obj := List (String × Val)

/-- `d.get(k)`: first value stored under `k`, `Val.none` when absent
(which coincides with a stored `None`, exactly as in Python). -/
def lookupVal : Obj → String → Val
  | [], _ => .none
  | (p :: r), k => match p.1 == k with
    | true => p.2
    | false => lookupVal r k

/-- `d.get(k, default)`: `None`-or-missing is NOT defaulted here — Python's
`dict.get` returns the stored value even if it is `None`; only a missing key
yields the default. -/
def getD : Obj → String → Val → Val
  | [], _, dflt => dflt
  | (p :: r), k, dflt => match p.1 == k with
    | true => p.2
    | false => getD r k dflt

/-- `k in d` for a Python dict. -/
def hasKey : Obj → String → Bool
  | [], _ => false
  | (p :: r), k => p.1 == k || hasKey r k

/-- `{**d, k: v}` in the case the source uses it (key `k` not present in
`d`): Python appends the new key at the end of the insertion order. -/
def withKey (d : Obj) (k : String) (v : Val) : Obj := d ++ [(k, v)]

/-- Python truthiness of a value. -/
def truthy : Val → Bool
  | .none => false
  | .bool b => b
  | .int n => !(n == 0)
  | .str s => !(s == "")
  | .list xs => !xs.isEmpty
  | .dict d => !d.isEmpty

/-- `v is None`. -/
def Val.isNone : Val → Bool
  | .none => true
  | _ => false

/-- `isinstance(v, dict)`. -/
def Val.isDict : Val → Bool
  | .dict _ => true
  | _ => false

/-- `isinstance(v, list)`. -/
def Val.isList : Val → Bool
  | .list _ => true
  | _ => false

/-- `v == s` where `s` is a string literal (Python equality between a
runtime value and a string is `False` unless the value is that string). -/
def valEqStr (v : Val) (s : String) : Bool :=
  match v with
  | .str t => t == s
  | _ => false

/-- Python `a or b` (returns the first truthy operand, else the second). -/
def pyOr (a b : Val) : Val := if truthy a then a else b

mutual
/-- Structural nesting depth of a value (used as recursion fuel for the
`Step.from_dict` recursion; any bound at least the depth gives the same
result). -/
def Val.depth : Val → Nat
  | .none => 1
  | .bool _ => 1
  | .int _ => 1
  | .str _ => 1
  | .list xs => 1 + Val.depthList xs
  | .dict d => 1 + Val.depthObj d

def Val.depthList : List Val → Nat
  | [] => 0
  | x :: r => max (Val.depth x) (Val.depthList r)

def Val.depthObj : List (String × Val) → Nat
  | [] => 0
  | p :: r => max (Val.depth p.2) (Val.depthObj r)
end

mutual
/-- `str(v)` / f-string interpolation of `v`.  Containers render with
Python `repr` of their elements. -/
def pyStr : Val → String
  | .none => "None"
  | .bool true => "True"
  | .bool false => "False"
  | .int n => toString n
  | .str s => s
  | .list xs => "[" ++ pyStrList xs ++ "]"
  | .dict d => "\x7b" ++ pyStrObj d ++ "\x7d"

/-- `repr(v)`: like `str` but strings are quoted. -/
def pyRepr : Val → String
  | .str s => "'" ++ s ++ "'"
  | v => pyStr v

def pyStrList : List Val → String
  | [] => ""
  | [x] => pyRepr x
  | x :: r => pyRepr x ++ ", " ++ pyStrList r

def pyStrObj : List (String × Val) → String
  | [] => ""
  | [(k, v)] => "'" ++ k ++ "': " ++ pyRepr v
  | (k, v) :: r => "'" ++ k ++ "': " ++ pyRepr v ++ ", " ++ pyStrObj r
end

/-- The Python exception classes relevant to this code base.
`attributeError` is raised e.g. by `record.get(...)` when `record` is a
dataclass instance rather than a dict; the tools never catch it. -/
inductive PyExc where
  | attributeError
  | typeError
  | keyError
  | valueError
deriving DecidableEq, Repr

/-- Result of running a piece of Python code: a value or an uncaught
exception. -/
abbrev PyResult (α : Type) := Except PyExc α

/-- `except (TypeError, KeyError, ValueError): handler` — the exact handler
tuple used by every tool in this code base.  `AttributeError` passes
through. -/
def catchTKV {α : Type} (m : PyResult α) (handler : α) : PyResult α :=
  match m with
  | .error .typeError => .ok handler
  | .error .keyError => .ok handler
  | .error .valueError => .ok handler
  | other => other

/-- Equality of `Except` results is decidable when both components are
(used to settle closed evaluations by `decide`). -/
instance exceptDecEq {e a : Type} [DecidableEq e] [DecidableEq a] :
    DecidableEq (Except e a) := fun x y =>
  match x, y with
  | .ok u, .ok v =>
    match decEq u v with
    | isTrue h => isTrue (by rw [h])
    | isFalse h => isFalse (by intro hc; cases hc; exact h rfl)
  | .error u, .error v =>
    match decEq u v with
    | isTrue h => isTrue (by rw [h])
    | isFalse h => isFalse (by intro hc; cases hc; exact h rfl)
  | .ok _, .error _ => isFalse (by intro hc; cases hc)
  | .error _, .ok _ => isFalse (by intro hc; cases hc)

/-! ## `utils/schemas.py` — helpers -/

/-- `_first(*values)`: the first argument that is not `None`
(`schemas.py` line 19). -/
def firstNonNone : List Val → Val
  | [] => .none
  | v :: r => if v.isNone then firstNonNone r else v

/-- `_get_list(data, *keys)`: the first value stored under one of `keys`
that is a list, ignoring non-list values (`schemas.py` line 24). -/
def getList : Obj → List String → List Val
  | _, [] => []
  | d, k :: r => match lookupVal d k with
    | .list xs => xs
    | _ => getList d r

/-- `_normalize_tags(raw)` (`schemas.py` line 33). -/
def normalizeTags (raw : Val) : List String :=
  match raw with
  | .list xs => (xs.filter (fun t => !t.isNone)).map pyStr
  | .none => []
  | v => [pyStr v]

/-- `_safe_enum(enum_cls, value)` (`schemas.py` line 42).  A `StrEnum`
member is equal to its value string, and the `ValueError` fallback is
`str(value)`, so for a string in the vocabulary the two branches coincide. -/
def safeEnum (vocab : List String) (v : Val) : Val :=
  match v with
  | .none => .none
  | .str s => if vocab.contains s then .str s else .str s
  | other => .str (pyStr other)

/-- `_dict_items(items, context)` (`schemas.py` line 52): keep only the dict
items of an iterable, logging (and dropping) everything else.  Iterating a
string yields characters and a dict yields its keys — none of which are
dicts — while iterating `None`, a bool or a number raises `TypeError`. -/
def dictItems (v : Val) : PyResult (List Obj) :=
  match v with
  | .list xs => .ok (xs.filterMap fun x => match x with
      | .dict d => some d
      | _ => Option.none)
  | .str _ => .ok []
  | .dict _ => .ok []
  | _ => .error .typeError

/-! ## `utils/schemas.py` — enum vocabularies (the `StrEnum` classes) -/

/-- `EventCategory` member values. -/
def eventCategoryVals : List String :=
  ["WORKOUT", "RACE_A", "RACE_B", "RACE_C", "NOTE", "PLAN", "HOLIDAY",
   "SICK", "INJURED", "SET_EFTP", "FITNESS_DAYS", "SEASON_START", "TARGET",
   "SET_FITNESS"]

/-- `ActivitySubType` member values. -/
def activitySubTypeVals : List String :=
  ["NONE", "COMMUTE", "WARMUP", "COOLDOWN", "RACE"]

/-- `MenstrualPhase` member values. -/
def menstrualPhaseVals : List String :=
  ["PERIOD", "FOLLICULAR", "OVULATING", "LUTEAL", "NONE"]

/-- `CustomItemType` member values. -/
def customItemTypeVals : List String :=
  ["FITNESS_CHART", "TRACE_CHART", "INPUT_FIELD", "ACTIVITY_FIELD",
   "INTERVAL_FIELD", "ACTIVITY_STREAM", "ACTIVITY_CHART",
   "ACTIVITY_HISTOGRAM", "ACTIVITY_HEATMAP", "ACTIVITY_MAP",
   "ACTIVITY_PANEL", "ZONES"]

/-- `CustomItemVisibility` member values. -/
def customItemVisibilityVals : List String := ["PRIVATE", "FOLLOWERS", "PUBLIC"]

/-- `AthleteStatus` member values. -/
def athleteStatusVals : List String := ["ACTIVE", "DORMANT", "ARCHIVED"]

/-- `SportType` member values. -/
def sportTypeVals : List String :=
  ["Ride", "Run", "Swim", "WeightTraining", "Hike", "Walk", "AlpineSki",
   "BackcountrySki", "Badminton", "Canoeing", "Crossfit", "EBikeRide",
   "EMountainBikeRide", "Elliptical", "Golf", "GravelRide", "TrackRide",
   "Handcycle", "HighIntensityIntervalTraining", "Hockey", "IceSkate",
   "InlineSkate", "Kayaking", "Kitesurf", "MountainBikeRide", "NordicSki",
   "OpenWaterSwim", "Padel", "Pilates", "Pickleball", "Racquetball",
   "Rugby", "RockClimbing", "RollerSki", "Rowing", "Sail", "Skateboard",
   "Snowboard", "Snowshoe", "Soccer", "Squash", "StairStepper",
   "StandUpPaddling", "Surfing", "TableTennis", "Tennis", "TrailRun",
   "Transition", "Velomobile", "VirtualRide", "VirtualRow", "VirtualRun",
   "VirtualSki", "WaterSport", "Wheelchair", "Windsurf", "Workout", "Yoga",
   "Other"]

/-! ## `utils/schemas.py` — dataclasses

Python dataclass instances store whatever `data.get(...)` returned, without
runtime coercion, so scalar fields are modelled as `Val` (default
`Val.none`).  List-valued fields built by the helpers get their own types,
mirroring the `field(default_factory=list)` defaults. -/

/-- `Activity` (`schemas.py` line 205). -/
structure Activity where
  id : Val := .none
  name : Val := .none
  description : Val := .none
  type : Val := .none
  start_date : Val := .none
  distance : Val := .none
  elapsed_time : Val := .none
  moving_time : Val := .none
  total_elevation_gain : Val := .none
  total_elevation_loss : Val := .none
  trainer : Val := .none
  average_heartrate : Val := .none
  max_heartrate : Val := .none
  average_cadence : Val := .none
  calories : Val := .none
  average_speed : Val := .none
  max_speed : Val := .none
  average_temp : Val := .none
  min_temp : Val := .none
  max_temp : Val := .none
  avg_lr_balance : Val := .none
  perceived_exertion : Val := .none
  feel : Val := .none
  session_rpe : Val := .none
  icu_ftp : Val := .none
  icu_training_load : Val := .none
  icu_atl : Val := .none
  icu_ctl : Val := .none
  icu_average_watts : Val := .none
  icu_weighted_avg_watts : Val := .none
  icu_joules : Val := .none
  icu_intensity : Val := .none
  icu_rpe : Val := .none
  icu_power_hr : Val := .none
  icu_variability_index : Val := .none
  icu_resting_hr : Val := .none
  icu_weight : Val := .none
  icu_efficiency_factor : Val := .none
  lthr : Val := .none
  decoupling : Val := .none
  average_stride : Val := .none
  average_wind_speed : Val := .none
  headwind_percent : Val := .none
  tailwind_percent : Val := .none
  trimp : Val := .none
  polarization_index : Val := .none
  power_load : Val := .none
  hr_load : Val := .none
  pace_load : Val := .none
  device_name : Val := .none
  power_meter : Val := .none
  file_type : Val := .none
  tags : List String := []

/-- `Activity.from_dict` (`schemas.py` line 267): maps select camelCase API
aliases (`startTime`, `avgHr`, `avgPower`, ...) to snake_case fields via
`_first`.  Never raises: every part is a total `dict.get` chain. -/
def Activity.fromDict (data : Obj) : Activity :=
  { id := lookupVal data "id"
    name := lookupVal data "name"
    description := lookupVal data "description"
    type := safeEnum sportTypeVals (lookupVal data "type")
    start_date := firstNonNone
      [lookupVal data "start_date", lookupVal data "startTime",
       lookupVal data "start_date_local"]
    distance := lookupVal data "distance"
    elapsed_time := firstNonNone
      [lookupVal data "elapsed_time", lookupVal data "duration"]
    moving_time := lookupVal data "moving_time"
    total_elevation_gain := firstNonNone
      [lookupVal data "total_elevation_gain", lookupVal data "elevationGain"]
    total_elevation_loss := lookupVal data "total_elevation_loss"
    trainer := lookupVal data "trainer"
    average_heartrate := firstNonNone
      [lookupVal data "average_heartrate", lookupVal data "avgHr"]
    max_heartrate := lookupVal data "max_heartrate"
    average_cadence := lookupVal data "average_cadence"
    calories := lookupVal data "calories"
    average_speed := lookupVal data "average_speed"
    max_speed := lookupVal data "max_speed"
    average_temp := lookupVal data "average_temp"
    min_temp := lookupVal data "min_temp"
    max_temp := lookupVal data "max_temp"
    avg_lr_balance := lookupVal data "avg_lr_balance"
    perceived_exertion := lookupVal data "perceived_exertion"
    feel := lookupVal data "feel"
    session_rpe := lookupVal data "session_rpe"
    icu_ftp := lookupVal data "icu_ftp"
    icu_training_load := firstNonNone
      [lookupVal data "icu_training_load", lookupVal data "trainingLoad"]
    icu_atl := lookupVal data "icu_atl"
    icu_ctl := lookupVal data "icu_ctl"
    icu_average_watts := firstNonNone
      [lookupVal data "icu_average_watts", lookupVal data "avgPower",
       lookupVal data "average_watts"]
    icu_weighted_avg_watts := lookupVal data "icu_weighted_avg_watts"
    icu_joules := lookupVal data "icu_joules"
    icu_intensity := lookupVal data "icu_intensity"
    icu_rpe := lookupVal data "icu_rpe"
    icu_power_hr := lookupVal data "icu_power_hr"
    icu_variability_index := lookupVal data "icu_variability_index"
    icu_resting_hr := lookupVal data "icu_resting_hr"
    icu_weight := lookupVal data "icu_weight"
    icu_efficiency_factor := lookupVal data "icu_efficiency_factor"
    lthr := lookupVal data "lthr"
    decoupling := lookupVal data "decoupling"
    average_stride := lookupVal data "average_stride"
    average_wind_speed := lookupVal data "average_wind_speed"
    headwind_percent := lookupVal data "headwind_percent"
    tailwind_percent := lookupVal data "tailwind_percent"
    trimp := lookupVal data "trimp"
    polarization_index := lookupVal data "polarization_index"
    power_load := lookupVal data "power_load"
    hr_load := lookupVal data "hr_load"
    pace_load := lookupVal data "pace_load"
    device_name := lookupVal data "device_name"
    power_meter := lookupVal data "power_meter"
    file_type := lookupVal data "file_type"
    tags := normalizeTags (lookupVal data "tags") }

/-- `ActivityInterval` (`schemas.py` line 342). -/
structure ActivityInterval where
  label : Val := .none
  type : Val := .none
  elapsed_time : Val := .none
  moving_time : Val := .none
  distance : Val := .none
  start_index : Val := .none
  end_index : Val := .none
  average_watts : Val := .none
  average_watts_kg : Val := .none
  max_watts : Val := .none
  max_watts_kg : Val := .none
  weighted_average_watts : Val := .none
  intensity : Val := .none
  training_load : Val := .none
  joules : Val := .none
  joules_above_ftp : Val := .none
  zone : Val := .none
  zone_min_watts : Val := .none
  zone_max_watts : Val := .none
  wbal_start : Val := .none
  wbal_end : Val := .none
  avg_lr_balance : Val := .none
  w5s_variability : Val := .none
  average_torque : Val := .none
  min_torque : Val := .none
  max_torque : Val := .none
  average_heartrate : Val := .none
  min_heartrate : Val := .none
  max_heartrate : Val := .none
  decoupling : Val := .none
  average_dfa_a1 : Val := .none
  average_respiration : Val := .none
  average_epoc : Val := .none
  average_smo2 : Val := .none
  average_smo2_2 : Val := .none
  average_thb : Val := .none
  average_thb_2 : Val := .none
  average_speed : Val := .none
  min_speed : Val := .none
  max_speed : Val := .none
  gap : Val := .none
  average_cadence : Val := .none
  min_cadence : Val := .none
  max_cadence : Val := .none
  average_stride : Val := .none
  total_elevation_gain : Val := .none
  min_altitude : Val := .none
  max_altitude : Val := .none
  average_gradient : Val := .none
  average_temp : Val := .none
  average_weather_temp : Val := .none
  average_feels_like : Val := .none
  average_wind_speed : Val := .none
  average_wind_gust : Val := .none
  prevailing_wind_deg : Val := .none
  headwind_percent : Val := .none
  tailwind_percent : Val := .none

/-- `ActivityInterval.from_dict` (`schemas.py` line 404): a plain `.get` per
field, total. -/
def ActivityInterval.fromDict (data : Obj) : ActivityInterval :=
  { label := lookupVal data "label"
    type := lookupVal data "type"
    elapsed_time := lookupVal data "elapsed_time"
    moving_time := lookupVal data "moving_time"
    distance := lookupVal data "distance"
    start_index := lookupVal data "start_index"
    end_index := lookupVal data "end_index"
    average_watts := lookupVal data "average_watts"
    average_watts_kg := lookupVal data "average_watts_kg"
    max_watts := lookupVal data "max_watts"
    max_watts_kg := lookupVal data "max_watts_kg"
    weighted_average_watts := lookupVal data "weighted_average_watts"
    intensity := lookupVal data "intensity"
    training_load := lookupVal data "training_load"
    joules := lookupVal data "joules"
    joules_above_ftp := lookupVal data "joules_above_ftp"
    zone := lookupVal data "zone"
    zone_min_watts := lookupVal data "zone_min_watts"
    zone_max_watts := lookupVal data "zone_max_watts"
    wbal_start := lookupVal data "wbal_start"
    wbal_end := lookupVal data "wbal_end"
    avg_lr_balance := lookupVal data "avg_lr_balance"
    w5s_variability := lookupVal data "w5s_variability"
    average_torque := lookupVal data "average_torque"
    min_torque := lookupVal data "min_torque"
    max_torque := lookupVal data "max_torque"
    average_heartrate := lookupVal data "average_heartrate"
    min_heartrate := lookupVal data "min_heartrate"
    max_heartrate := lookupVal data "max_heartrate"
    decoupling := lookupVal data "decoupling"
    average_dfa_a1 := lookupVal data "average_dfa_a1"
    average_respiration := lookupVal data "average_respiration"
    average_epoc := lookupVal data "average_epoc"
    average_smo2 := lookupVal data "average_smo2"
    average_smo2_2 := lookupVal data "average_smo2_2"
    average_thb := lookupVal data "average_thb"
    average_thb_2 := lookupVal data "average_thb_2"
    average_speed := lookupVal data "average_speed"
    min_speed := lookupVal data "min_speed"
    max_speed := lookupVal data "max_speed"
    gap := lookupVal data "gap"
    average_cadence := lookupVal data "average_cadence"
    min_cadence := lookupVal data "min_cadence"
    max_cadence := lookupVal data "max_cadence"
    average_stride := lookupVal data "average_stride"
    total_elevation_gain := lookupVal data "total_elevation_gain"
    min_altitude := lookupVal data "min_altitude"
    max_altitude := lookupVal data "max_altitude"
    average_gradient := lookupVal data "average_gradient"
    average_temp := lookupVal data "average_temp"
    average_weather_temp := lookupVal data "average_weather_temp"
    average_feels_like := lookupVal data "average_feels_like"
    average_wind_speed := lookupVal data "average_wind_speed"
    average_wind_gust := lookupVal data "average_wind_gust"
    prevailing_wind_deg := lookupVal data "prevailing_wind_deg"
    headwind_percent := lookupVal data "headwind_percent"
    tailwind_percent := lookupVal data "tailwind_percent" }

/-- `ActivityIntervalGroup` (`schemas.py` line 468). -/
structure ActivityIntervalGroup where
  id : Val := .none
  count : Val := .none
  elapsed_time : Val := .none
  moving_time : Val := .none
  distance : Val := .none
  start_index : Val := .none
  average_watts : Val := .none
  average_watts_kg : Val := .none
  max_watts : Val := .none
  weighted_average_watts : Val := .none
  intensity : Val := .none
  average_heartrate : Val := .none
  max_heartrate : Val := .none
  average_speed : Val := .none
  max_speed : Val := .none
  average_cadence : Val := .none
  max_cadence : Val := .none

/-- `ActivityIntervalGroup.from_dict` (`schemas.py` line 490). -/
def ActivityIntervalGroup.fromDict (data : Obj) : ActivityIntervalGroup :=
  { id := lookupVal data "id"
    count := lookupVal data "count"
    elapsed_time := lookupVal data "elapsed_time"
    moving_time := lookupVal data "moving_time"
    distance := lookupVal data "distance"
    start_index := lookupVal data "start_index"
    average_watts := lookupVal data "average_watts"
    average_watts_kg := lookupVal data "average_watts_kg"
    max_watts := lookupVal data "max_watts"
    weighted_average_watts := lookupVal data "weighted_average_watts"
    intensity := lookupVal data "intensity"
    average_heartrate := lookupVal data "average_heartrate"
    max_heartrate := lookupVal data "max_heartrate"
    average_speed := lookupVal data "average_speed"
    max_speed := lookupVal data "max_speed"
    average_cadence := lookupVal data "average_cadence"
    max_cadence := lookupVal data "max_cadence" }

/-- `IntervalsData` (`schemas.py` line 514). -/
structure IntervalsData where
  id : Val := .none
  analyzed : Val := .none
  icu_intervals : List ActivityInterval := []
  icu_groups : List ActivityIntervalGroup := []

/-- `IntervalsData.from_dict` (`schemas.py` line 523).  Raises `TypeError`
(from `_dict_items` iteration) when `icu_intervals`/`icu_groups` is a truthy
non-iterable. -/
def IntervalsData.fromDict (data : Obj) : PyResult IntervalsData := do
  let intervals ← dictItems (pyOr (lookupVal data "icu_intervals") (.list []))
  let groups ← dictItems (pyOr (lookupVal data "icu_groups") (.list []))
  .ok { id := lookupVal data "id"
        analyzed := lookupVal data "analyzed"
        icu_intervals := intervals.map ActivityInterval.fromDict
        icu_groups := groups.map ActivityIntervalGroup.fromDict }

/-- `ActivityMessage` (`schemas.py` line 540). -/
structure ActivityMessage where
  name : Val := .none
  created : Val := .none
  type : Val := .none
  content : Val := .none

/-- `ActivityMessage.from_dict` (`schemas.py` line 549), total. -/
def ActivityMessage.fromDict (data : Obj) : ActivityMessage :=
  { name := lookupVal data "name"
    created := lookupVal data "created"
    type := lookupVal data "type"
    content := lookupVal data "content" }

/-- `WellnessSportInfo` (`schemas.py` line 560). -/
structure WellnessSportInfo where
  type : Val := .none
  eftp : Val := .none

/-- `WellnessSportInfo.from_dict` (`schemas.py` line 567), total. -/
def WellnessSportInfo.fromDict (data : Obj) : WellnessSportInfo :=
  { type := lookupVal data "type", eftp := lookupVal data "eftp" }

/-- `WellnessEntry` (`schemas.py` line 573). -/
structure WellnessEntry where
  id : Val := .none
  ctl : Val := .none
  atl : Val := .none
  ramp_rate : Val := .none
  ctl_load : Val := .none
  atl_load : Val := .none
  sport_info : List WellnessSportInfo := []
  weight : Val := .none
  resting_hr : Val := .none
  hrv : Val := .none
  hrv_sdnn : Val := .none
  menstrual_phase : Val := .none
  menstrual_phase_predicted : Val := .none
  kcal_consumed : Val := .none
  sleep_secs : Val := .none
  sleep_score : Val := .none
  sleep_quality : Val := .none
  avg_sleeping_hr : Val := .none
  soreness : Val := .none
  fatigue : Val := .none
  stress : Val := .none
  mood : Val := .none
  motivation : Val := .none
  injury : Val := .none
  spo2 : Val := .none
  systolic : Val := .none
  diastolic : Val := .none
  hydration : Val := .none
  hydration_volume : Val := .none
  readiness : Val := .none
  baevsky_si : Val := .none
  blood_glucose : Val := .none
  lactate : Val := .none
  body_fat : Val := .none
  abdomen : Val := .none
  vo2max : Val := .none
  comments : Val := .none
  steps : Val := .none
  respiration : Val := .none
  locked : Val := .none
  sleep_hours : Val := .none

/-- `WellnessEntry.from_dict` (`schemas.py` line 619).  Raises `TypeError`
when `sportInfo` is a truthy non-iterable (via `_dict_items`); otherwise a
total `.get` chain over the camelCase source keys. -/
def WellnessEntry.fromDict (data : Obj) : PyResult WellnessEntry := do
  let sports ← dictItems (pyOr (lookupVal data "sportInfo") (.list []))
  .ok {
    id := lookupVal data "id"
    ctl := lookupVal data "ctl"
    atl := lookupVal data "atl"
    ramp_rate := lookupVal data "rampRate"
    ctl_load := lookupVal data "ctlLoad"
    atl_load := lookupVal data "atlLoad"
    sport_info := sports.map WellnessSportInfo.fromDict
    weight := lookupVal data "weight"
    resting_hr := firstNonNone
      [lookupVal data "restingHR", lookupVal data "restingHr"]
    hrv := lookupVal data "hrv"
    hrv_sdnn := lookupVal data "hrvSDNN"
    menstrual_phase := safeEnum menstrualPhaseVals (lookupVal data "menstrualPhase")
    menstrual_phase_predicted :=
      safeEnum menstrualPhaseVals (lookupVal data "menstrualPhasePredicted")
    kcal_consumed := lookupVal data "kcalConsumed"
    sleep_secs := lookupVal data "sleepSecs"
    sleep_score := lookupVal data "sleepScore"
    sleep_quality := lookupVal data "sleepQuality"
    avg_sleeping_hr := lookupVal data "avgSleepingHR"
    soreness := lookupVal data "soreness"
    fatigue := lookupVal data "fatigue"
    stress := lookupVal data "stress"
    mood := lookupVal data "mood"
    motivation := lookupVal data "motivation"
    injury := lookupVal data "injury"
    spo2 := lookupVal data "spO2"
    systolic := lookupVal data "systolic"
    diastolic := lookupVal data "diastolic"
    hydration := lookupVal data "hydration"
    hydration_volume := lookupVal data "hydrationVolume"
    readiness := lookupVal data "readiness"
    baevsky_si := lookupVal data "baevskySI"
    blood_glucose := lookupVal data "bloodGlucose"
    lactate := lookupVal data "lactate"
    body_fat := lookupVal data "bodyFat"
    abdomen := lookupVal data "abdomen"
    vo2max := lookupVal data "vo2max"
    comments := lookupVal data "comments"
    steps := lookupVal data "steps"
    respiration := lookupVal data "respiration"
    locked := lookupVal data "locked"
    sleep_hours := lookupVal data "sleepHours" }

/-- `Athlete` (`schemas.py` line 670). -/
structure Athlete where
  id : Val := .none
  name : Val := .none
  weight : Val := .none
  icu_resting_hr : Val := .none
  location : Val := .none
  timezone : Val := .none
  status : Val := .none

/-- `Athlete.from_dict` (`schemas.py` line 682), total.  Note that
`location` is resolved with Python `or` (truthiness), not `_first`:
`data.get("location") or data.get("city")`. -/
def Athlete.fromDict (data : Obj) : Athlete :=
  { id := lookupVal data "id"
    name := lookupVal data "name"
    weight := firstNonNone
      [lookupVal data "weight", lookupVal data "icu_weight"]
    icu_resting_hr := firstNonNone
      [lookupVal data "icu_resting_hr", lookupVal data "restingHr",
       lookupVal data "resting_hr"]
    location := pyOr (lookupVal data "location") (lookupVal data "city")
    timezone := lookupVal data "timezone"
    status := safeEnum athleteStatusVals (lookupVal data "status") }

/-- `AthleteSportSettings` (`schemas.py` line 700). -/
structure AthleteSportSettings where
  type : Val := .none
  ftp : Val := .none
  lthr : Val := .none
  max_hr : Val := .none
  power_zones : List Val := []
  hr_zones : List Val := []
  pace_zones : List Val := []
  warmup_time : Val := .none
  cooldown_time : Val := .none

/-- `AthleteSportSettings.from_dict` (`schemas.py` line 714), total
(`_get_list` ignores non-list values rather than raising). -/
def AthleteSportSettings.fromDict (data : Obj) : AthleteSportSettings :=
  { type := safeEnum sportTypeVals (lookupVal data "type")
    ftp := lookupVal data "ftp"
    lthr := lookupVal data "lthr"
    max_hr := firstNonNone [lookupVal data "max_hr", lookupVal data "maxHr"]
    power_zones := getList data ["power_zones", "zones", "powerZones"]
    hr_zones := getList data ["hr_zones"]
    pace_zones := getList data ["pace_zones", "paceZones"]
    warmup_time := firstNonNone
      [lookupVal data "warmup_time", lookupVal data "warmup"]
    cooldown_time := firstNonNone
      [lookupVal data "cooldown_time", lookupVal data "cooldown"] }

/-- `CustomItem` (`schemas.py` line 730). -/
structure CustomItem where
  id : Val := .none
  name : Val := .none
  type : Val := .none
  description : Val := .none
  visibility : Val := .none
  index : Val := .none
  hide_script : Val := .none
  content : Val := .none

/-- `CustomItem.from_dict` (`schemas.py` line 743), total. -/
def CustomItem.fromDict (data : Obj) : CustomItem :=
  { id := lookupVal data "id"
    name := lookupVal data "name"
    type := safeEnum customItemTypeVals (lookupVal data "type")
    description := lookupVal data "description"
    visibility := safeEnum customItemVisibilityVals (lookupVal data "visibility")
    index := lookupVal data "index"
    hide_script := lookupVal data "hide_script"
    content := lookupVal data "content" }

/-! ## `utils/types.py` — workout document types

`Workout.from_dict` parses a nested `workout_doc` with `WorkoutDoc.from_dict`
from `utils/types.py`, whose enum constructors (`Intensity(...)`,
`WorkoutTarget(...)`, ...) raise `ValueError` on unknown values.  These
`from_dict`s use `"key" in data` / `data["key"]`; on a non-dict argument the
membership test raises `TypeError` for numbers, bools and `None`, while for
strings (substring test) and lists (element test) a *matching* key makes the
subsequent string-indexing raise `TypeError`. -/

/-- `Intensity` member values. -/
def intensityVals : List String :=
  ["active", "rest", "warmup", "cooldown", "recovery", "interval", "other"]

/-- `WorkoutTarget` member values. -/
def workoutTargetVals : List String := ["AUTO", "POWER", "HR", "PACE"]

/-- `HrTarget` member values. -/
def hrTargetVals : List String := ["lap", "1s", "3s", "10s", "30s"]

/-- `PaceUnits` member values. -/
def paceUnitsVals : List String :=
  ["SECS_100M", "SECS_100Y", "MINS_KM", "MINS_MILE", "SECS_500M"]

/-- `ValueUnits` member values. -/
def valueUnitsVals : List String :=
  ["%mmp", "%hr", "%lthr", "%pace", "power_zone", "hr_zone", "pace_zone",
   "w", "%ftp", "cadence"]

/-- `EnumCls(value)`: value lookup in a `StrEnum`/str-valued `Enum`; raises
`ValueError` when no member has that value (non-strings never match). -/
def enumParse (vocab : List String) (v : Val) : PyResult Val :=
  match v with
  | .str s => if vocab.contains s then .ok (.str s) else .error .valueError
  | _ => .error .valueError

/-- Prefix test on character lists. -/
def isPrefixChars : List Char → List Char → Bool
  | [], _ => true
  | _ :: _, [] => false
  | a :: as, b :: bs => a == b && isPrefixChars as bs

/-- Substring occurrence test on character lists. -/
def containsChars (needle : List Char) : List Char → Bool
  | [] => needle.isEmpty
  | c :: r => isPrefixChars needle (c :: r) || containsChars needle r

/-- `k in s` for Python strings: substring test. -/
def pyInStr (k s : String) : Bool := containsChars k.data s.data

/-- `hay.replace(pat, rep)` for a non-empty pattern; the fuel is the
length of the remaining text, so it never runs out. -/
def replaceChars (pat rep : List Char) : Nat → List Char → List Char
  | 0, hay => hay
  | _ + 1, [] => []
  | fuel + 1, c :: r =>
    if isPrefixChars pat (c :: r) then
      rep ++ replaceChars pat rep fuel ((c :: r).drop pat.length)
    else c :: replaceChars pat rep fuel r

/-- Python `str.replace`. -/
def pyReplace (s pat rep : String) : String :=
  String.mk (replaceChars pat.data rep.data s.data.length s.data)

/-- Python `str.strip()`: drop leading and trailing whitespace. -/
def pyStrip (s : String) : String :=
  String.mk (((s.data.dropWhile Char.isWhitespace).reverse.dropWhile
    Char.isWhitespace).reverse)

/-- `sep.join(parts)`. -/
def joinSep (sep : String) : List String → String
  | [] => ""
  | [x] => x
  | x :: r => x ++ sep ++ joinSep sep r

/-- `k in xs` for Python lists: element equality test. -/
def pyInList (k : String) (xs : List Val) : Bool := xs.any (fun v => valEqStr v k)

/-- `any(k in v for k in keys)` when `v` is not a dict: raises `TypeError`
for non-iterable `v`, otherwise tests substring/element membership. -/
def memberAny (keys : List String) (v : Val) : PyResult Bool :=
  match v with
  | .str s => .ok (keys.any (fun k => pyInStr k s))
  | .list xs => .ok (keys.any (fun k => pyInList k xs))
  | .dict d => .ok (keys.any (fun k => hasKey d k))
  | _ => .error .typeError

/-- `Value` (`types.py` line 108).  The `end` field is spelled `end_`
because `end` is reserved in Lean. -/
structure Value where
  value : Val := .none
  start : Val := .none
  end_ : Val := .none
  units : Val := .none
  target : Val := .none

/-- The keys probed by `Value.from_dict`. -/
def valueKeys : List String := ["value", "start", "end", "units", "target"]

/-- `Value.from_dict` (`types.py` line 137): presence-checked kwargs;
`ValueUnits`/`HrTarget` constructors raise `ValueError` on unknown values.
On a non-dict argument the first *matching* membership probe leads to a
`TypeError` from string indexing; with no match the constructor defaults. -/
def Value.fromVal (v : Val) : PyResult Value :=
  match v with
  | .dict d => do
    let units ← if hasKey d "units"
      then enumParse valueUnitsVals (lookupVal d "units")
      else .ok .none
    let target ← if hasKey d "target"
      then enumParse hrTargetVals (lookupVal d "target")
      else .ok .none
    .ok { value := lookupVal d "value"
          start := lookupVal d "start"
          end_ := lookupVal d "end"
          units := units
          target := target }
  | other => do
    let b ← memberAny valueKeys other
    if b then .error .typeError else .ok {}

/-- `Step` (`types.py` line 209).  `steps` and the `Value`-typed fields
default to `None` and are set only when the key is present. -/
structure Step where
  text : Val := .none
  text_locale : Val := .none
  duration : Val := .none
  distance : Val := .none
  until_lap_press : Val := .none
  reps : Val := .none
  warmup : Val := .none
  cooldown : Val := .none
  intensity : Val := .none
  steps : Option (List Step) := Option.none
  ramp : Val := .none
  freeride : Val := .none
  maxeffort : Val := .none
  power : Option Value := Option.none
  hr : Option Value := Option.none
  pace : Option Value := Option.none
  cadence : Option Value := Option.none
  hidepower : Val := .none
  _power : Option Value := Option.none
  _hr : Option Value := Option.none
  _pace : Option Value := Option.none
  _distance : Val := .none

/-- The keys probed by `Step.from_dict`. -/
def stepKeys : List String :=
  ["text", "text_locale", "duration", "distance", "until_lap_press", "reps",
   "warmup", "cooldown", "intensity", "steps", "ramp", "freeride",
   "maxeffort", "power", "hr", "pace", "cadence", "hidepower", "_power",
   "_hr", "_pace", "_distance"]

/-- Optional `Value` sub-parse used by `Step.from_dict` for the
power/hr/pace/cadence fields. -/
def optValue (d : Obj) (k : String) : PyResult (Option Value) :=
  if hasKey d k then (Value.fromVal (lookupVal d k)).map (fun v => some v)
  else .ok Option.none

/-- `Step.from_dict` (`types.py` line 294), with an explicit recursion fuel
for the nested `steps` list.  The fuel bounds the nesting depth; every
caller passes `sizeOf` of the value, which the recursion cannot exhaust, so
the `fuel = 0` branch is unreachable.  Iterating a non-list `data["steps"]`
follows Python: strings/dicts iterate their characters/keys, everything
else raises `TypeError`. -/
def stepFromVal : Nat → Val → PyResult Step
  | _, .str s => do
    let b ← memberAny stepKeys (.str s)
    if b then .error .typeError else .ok { steps := Option.none }
  | _, .list xs => do
    let b ← memberAny stepKeys (.list xs)
    if b then .error .typeError else .ok { steps := Option.none }
  | Nat.succ fuel, .dict d => do
    let intensity ← if hasKey d "intensity"
      then enumParse intensityVals (lookupVal d "intensity")
      else .ok .none
    let steps ← if hasKey d "steps"
      then (match lookupVal d "steps" with
        | .list xs => (xs.mapM (stepFromVal fuel)).map (fun l => some l)
        | .str s => ((s.data.map (fun c => Val.str (String.mk [c]))).mapM
            (stepFromVal fuel)).map (fun l => some l)
        | .dict d2 => ((d2.map (fun p => Val.str p.1)).mapM
            (stepFromVal fuel)).map (fun l => some l)
        | _ => .error .typeError)
      else .ok Option.none
    let power ← optValue d "power"
    let hr ← optValue d "hr"
    let pace ← optValue d "pace"
    let cadence ← optValue d "cadence"
    let xpower ← optValue d "_power"
    let xhr ← optValue d "_hr"
    let xpace ← optValue d "_pace"
    .ok { text := lookupVal d "text"
          text_locale := lookupVal d "text_locale"
          duration := lookupVal d "duration"
          distance := lookupVal d "distance"
          until_lap_press := lookupVal d "until_lap_press"
          reps := lookupVal d "reps"
          warmup := lookupVal d "warmup"
          cooldown := lookupVal d "cooldown"
          intensity := intensity
          steps := steps
          ramp := lookupVal d "ramp"
          freeride := lookupVal d "freeride"
          maxeffort := lookupVal d "maxeffort"
          power := power
          hr := hr
          pace := pace
          cadence := cadence
          hidepower := lookupVal d "hidepower"
          _power := xpower
          _hr := xhr
          _pace := xpace
          _distance := lookupVal d "_distance" }
  | 0, .dict _ => .error .typeError
  | _, _ => .error .typeError

/-- `SportSettings` (`types.py` line 436): an empty dataclass whose
`from_dict` ignores its argument. -/
structure SportSettings where

/-- `WorkoutDoc` (`types.py` line 462). -/
structure WorkoutDoc where
  description : Val := .none
  description_locale : Val := .none
  duration : Val := .none
  distance : Val := .none
  ftp : Val := .none
  lthr : Val := .none
  threshold_pace : Val := .none
  pace_units : Val := .none
  sport_settings : Option SportSettings := Option.none
  category : Val := .none
  target : Val := .none
  steps : Option (List Step) := Option.none
  zone_times : Val := .none
  options : Val := .none
  locales : Val := .none

/-- `WorkoutDoc.from_dict` (`types.py` line 528): presence-checked kwargs
over a dict (all call sites guard `isinstance(raw_doc, dict)`). -/
def WorkoutDoc.fromDict (d : Obj) : PyResult WorkoutDoc := do
  let pace_units ← if hasKey d "pace_units"
    then enumParse paceUnitsVals (lookupVal d "pace_units")
    else .ok .none
  let target ← if hasKey d "target"
    then enumParse workoutTargetVals (lookupVal d "target")
    else .ok .none
  let steps ← if hasKey d "steps"
    then (match lookupVal d "steps" with
      | .list xs =>
        (xs.mapM (fun x => stepFromVal (Val.depth x) x)).map (fun l => some l)
      | .str s => ((s.data.map (fun c => Val.str (String.mk [c]))).mapM
          (fun x => stepFromVal (Val.depth x) x)).map (fun l => some l)
      | .dict d2 => ((d2.map (fun p => Val.str p.1)).mapM
          (fun x => stepFromVal (Val.depth x) x)).map (fun l => some l)
      | _ => .error .typeError)
    else .ok Option.none
  .ok { description := lookupVal d "description"
        description_locale := lookupVal d "description_locale"
        duration := lookupVal d "duration"
        distance := lookupVal d "distance"
        ftp := lookupVal d "ftp"
        lthr := lookupVal d "lthr"
        threshold_pace := lookupVal d "threshold_pace"
        pace_units := pace_units
        sport_settings := if hasKey d "sportSettings"
          then some SportSettings.mk else Option.none
        category := lookupVal d "category"
        target := target
        steps := steps
        zone_times := lookupVal d "zoneTimes"
        options := lookupVal d "options"
        locales := lookupVal d "locales" }

/-- `Workout` (`schemas.py` line 773). -/
structure Workout where
  id : Val := .none
  athlete_id : Val := .none
  name : Val := .none
  description : Val := .none
  type : Val := .none
  folder_id : Val := .none
  tags : List String := []
  indoor : Val := .none
  distance : Val := .none
  color : Val := .none
  moving_time : Val := .none
  icu_training_load : Val := .none
  target : Val := .none
  workout_doc : Option WorkoutDoc := Option.none

/-- `Workout.from_dict` (`schemas.py` line 792).  Raises whatever
`WorkoutDoc.from_dict` raises when `workout_doc`/`workoutDoc` holds a dict
(e.g. `ValueError` from an enum constructor); otherwise total. -/
def Workout.fromDict (data : Obj) : PyResult Workout := do
  let rawDoc := firstNonNone
    [lookupVal data "workout_doc", lookupVal data "workoutDoc"]
  let doc ← match rawDoc with
    | .dict d => (WorkoutDoc.fromDict d).map (fun w => some w)
    | _ => .ok Option.none
  .ok {
    id := lookupVal data "id"
    athlete_id := lookupVal data "athlete_id"
    name := lookupVal data "name"
    description := lookupVal data "description"
    type := safeEnum sportTypeVals (lookupVal data "type")
    folder_id := firstNonNone
      [lookupVal data "folder_id", lookupVal data "folderId"]
    tags := normalizeTags (lookupVal data "tags")
    indoor := lookupVal data "indoor"
    distance := lookupVal data "distance"
    color := lookupVal data "color"
    moving_time := firstNonNone
      [lookupVal data "moving_time", lookupVal data "duration"]
    icu_training_load := firstNonNone
      [lookupVal data "icu_training_load", lookupVal data "tss"]
    target := lookupVal data "target"
    workout_doc := doc }

/-- `Folder` (`schemas.py` line 847). -/
structure Folder where
  id : Val := .none
  name : Val := .none
  type : Val := .none
  description : Val := .none
  workouts : List Workout := []

/-- `Folder.from_dict` (`schemas.py` line 857): the nested `workouts` (or
legacy `children`) list is filtered by `_dict_items`, then each entry is
parsed with `Workout.from_dict`; any raise propagates out of the whole
folder parse. -/
def Folder.fromDict (data : Obj) : PyResult Folder := do
  let rawWorkouts := pyOr (lookupVal data "workouts")
    (pyOr (lookupVal data "children") (.list []))
  let items ← dictItems rawWorkouts
  let workouts ← items.mapM Workout.fromDict
  .ok {
    id := lookupVal data "id"
    name := lookupVal data "name"
    type := lookupVal data "type"
    description := lookupVal data "description"
    workouts := workouts }

/-- `EventWorkout` (`schemas.py` line 872). -/
structure EventWorkout where
  id : Val := .none
  type : Val := .none
  moving_time : Val := .none
  icu_training_load : Val := .none
  intervals : List Obj := []

/-- `EventWorkout.from_dict` (`schemas.py` line 882). -/
def EventWorkout.fromDict (data : Obj) : PyResult EventWorkout := do
  let intervals ← dictItems (pyOr (lookupVal data "intervals") (.list []))
  .ok {
    id := lookupVal data "id"
    type := lookupVal data "type"
    moving_time := firstNonNone
      [lookupVal data "moving_time", lookupVal data "duration"]
    icu_training_load := firstNonNone
      [lookupVal data "icu_training_load", lookupVal data "tss"]
    intervals := intervals }

/-- `EventResponse` (`schemas.py` line 896). -/
structure EventResponse where
  id : Val := .none
  start_date_local : Val := .none
  name : Val := .none
  description : Val := .none
  type : Val := .none
  category : Val := .none
  race : Val := .none
  priority : Val := .none
  result : Val := .none
  workout : Option EventWorkout := Option.none
  calendar : Val := .none

/-- `EventResponse.from_dict` (`schemas.py` line 912). -/
def EventResponse.fromDict (data : Obj) : PyResult EventResponse := do
  let workout ← match lookupVal data "workout" with
    | .dict d => (EventWorkout.fromDict d).map (fun w => some w)
    | _ => .ok Option.none
  .ok {
    id := lookupVal data "id"
    start_date_local := firstNonNone
      [lookupVal data "start_date_local", lookupVal data "date"]
    name := lookupVal data "name"
    description := lookupVal data "description"
    type := safeEnum sportTypeVals (lookupVal data "type")
    category := safeEnum eventCategoryVals (lookupVal data "category")
    race := lookupVal data "race"
    priority := lookupVal data "priority"
    result := lookupVal data "result"
    workout := workout
    calendar := lookupVal data "calendar" }

/-! ## Dates — `datetime.fromisoformat` / `timedelta` / `strftime`

`_fetch_more_activities` parses the query start date, subtracts 60 and 1
days, formats back with `"%Y-%m-%d"`, and compares the two formatted
strings with Python string `>=` (code-point lexicographic).  Dates are
modelled with the proleptic Gregorian calendar via day numbers (the
standard civil-days conversion), which is exactly `datetime`'s calendar. -/

/-- A calendar date as held by `datetime` (year, month, day). -/
structure PyDate where
  year : Int
  month : Int
  day : Int

/-- Gregorian leap year test. -/
def isLeapYear (y : Int) : Bool :=
  (y.emod 4 == 0 && y.emod 100 != 0) || y.emod 400 == 0

/-- Number of days in a month. -/
def daysInMonth (y m : Int) : Int :=
  if m == 2 then (if isLeapYear y then 29 else 28)
  else if m == 4 || m == 6 || m == 9 || m == 11 then 30
  else 31

/-- Day number of a civil date (days since 1970-01-01, the standard
`days_from_civil` algorithm, using floor division). -/
def PyDate.toDays (d : PyDate) : Int :=
  let y := if d.month ≤ 2 then d.year - 1 else d.year
  let era := y.fdiv 400
  let yoe := y - era * 400
  let mp := (d.month + 9).emod 12
  let doy := (153 * mp + 2).fdiv 5 + d.day - 1
  let doe := yoe * 365 + yoe.fdiv 4 - yoe.fdiv 100 + doy
  era * 146097 + doe - 719468

/-- Civil date of a day number (the standard `civil_from_days` algorithm). -/
def PyDate.ofDays (n : Int) : PyDate :=
  let z := n + 719468
  let era := z.fdiv 146097
  let doe := z - era * 146097
  let yoe := (doe - doe.fdiv 1460 + doe.fdiv 36524 - doe.fdiv 146096).fdiv 365
  let y := yoe + era * 400
  let doy := doe - (365 * yoe + yoe.fdiv 4 - yoe.fdiv 100)
  let mp := (5 * doy + 2).fdiv 153
  let day := doy - (153 * mp + 2).fdiv 5 + 1
  let m := mp + (if mp < 10 then 3 else -9)
  { year := y + (if m ≤ 2 then 1 else 0), month := m, day := day }

/-- `date - timedelta(days=n)`. -/
def PyDate.subDays (d : PyDate) (n : Int) : PyDate :=
  PyDate.ofDays (d.toDays - n)

/-- Zero-padded decimal rendering of a non-negative number to a minimum
width, as `strftime` does for `%Y`/`%m`/`%d`. -/
def padNum (width : Nat) (n : Int) : String :=
  let s := toString n.toNat
  let pad := width - s.length
  String.mk (List.replicate pad '0') ++ s

/-- `d.strftime("%Y-%m-%d")`. -/
def PyDate.fmt (d : PyDate) : String :=
  padNum 4 d.year ++ "-" ++ padNum 2 d.month ++ "-" ++ padNum 2 d.day

/-- `int(s)` on a digit string (helper for the ISO date parser). -/
def digitsToInt (cs : List Char) : Int :=
  cs.foldl (fun acc c => acc * 10 + (c.toNat - '0'.toNat : Int)) 0

/-- `datetime.fromisoformat` restricted to the `YYYY-MM-DD` date form used
by this code base; anything else raises `ValueError` (as `fromisoformat`
does for malformed input). -/
def parseISODate (s : String) : PyResult PyDate :=
  match s.data with
  | [y1, y2, y3, y4, '-', m1, m2, '-', d1, d2] =>
    if [y1, y2, y3, y4, m1, m2, d1, d2].all Char.isDigit then
      let y := digitsToInt [y1, y2, y3, y4]
      let m := digitsToInt [m1, m2]
      let d := digitsToInt [d1, d2]
      if 1 ≤ m && m ≤ 12 && 1 ≤ d && d ≤ daysInMonth y m && 1 ≤ y then
        .ok { year := y, month := m, day := d }
      else .error .valueError
    else .error .valueError
  | _ => .error .valueError

/-- Code-point lexicographic order on character lists (Python string `<`). -/
def charListLt : List Char → List Char → Bool
  | [], [] => false
  | [], _ :: _ => true
  | _ :: _, [] => false
  | a :: as, b :: bs =>
    if a.toNat < b.toNat then true
    else if b.toNat < a.toNat then false
    else charListLt as bs

/-- Python string `a >= b`. -/
def pyStrGe (a b : String) : Bool := !charListLt a.data b.data

/-! ## `json.loads` — used by `create_custom_item` / `update_custom_item`

A recursive-descent JSON parser over the character list, with fuel bounded
by the input length.  Numbers are parsed as integers (floating point is out
of scope of the embedding) and `\u` escapes of the Basic Multilingual Plane
are decoded; both restrictions are irrelevant to the inputs exercised
here.  `jsonLoads` returns `Option.none` exactly when `json.loads` raises
`json.JSONDecodeError`. -/

/-- Skip JSON whitespace. -/
def skipWs : List Char → List Char
  | c :: r => if c == ' ' || c == '\t' || c == '\n' || c == '\r'
      then skipWs r else c :: r
  | [] => []

/-- Parse the body of a JSON string literal after the opening
double-quote; returns the string and the rest after the closing quote.
Fuel bounds the number of characters consumed. -/
def parseJsonString : Nat → List Char → Option (String × List Char)
  | 0, _ => Option.none
  | _ + 1, [] => Option.none
  | fuel + 1, c :: r =>
    if c == '"' then some ("", r)
    else if c == '\\' then
      match r with
      | [] => Option.none
      | e :: r2 =>
        let decoded : Option (Char × List Char) :=
          if e == '"' then some ('"', r2)
          else if e == '\\' then some ('\\', r2)
          else if e == '/' then some ('/', r2)
          else if e == 'n' then some ('\n', r2)
          else if e == 't' then some ('\t', r2)
          else if e == 'r' then some ('\r', r2)
          else if e == 'b' then some (Char.ofNat 8, r2)
          else if e == 'f' then some (Char.ofNat 12, r2)
          else if e == 'u' then
            match r2 with
            | h1 :: h2 :: h3 :: h4 :: r3 =>
              let hex? (c : Char) : Option Nat :=
                let n := c.toNat
                if 48 ≤ n ∧ n ≤ 57 then some (n - 48)
                else if 97 ≤ n ∧ n ≤ 102 then some (n - 87)
                else if 65 ≤ n ∧ n ≤ 70 then some (n - 55)
                else Option.none
              match hex? h1, hex? h2, hex? h3, hex? h4 with
              | some a, some b, some c2, some d =>
                some (Char.ofNat (((a * 16 + b) * 16 + c2) * 16 + d), r3)
              | _, _, _, _ => Option.none
            | _ => Option.none
          else Option.none
        match decoded with
        | some (ch, rest) =>
          match parseJsonString fuel rest with
          | some (str, rest2) => some (String.mk [ch] ++ str, rest2)
          | Option.none => Option.none
        | Option.none => Option.none
    else
      match parseJsonString fuel r with
      | some (str, rest) => some (String.mk [c] ++ str, rest)
      | Option.none => Option.none

/-- Parse a run of decimal digits. -/
def parseDigits : List Char → (List Char × List Char)
  | [] => ([], [])
  | c :: r =>
    if c.isDigit then
      let (ds, rest) := parseDigits r
      (c :: ds, rest)
    else ([], c :: r)

mutual
/-- Parse one JSON value; fuel bounds the nesting depth and input length. -/
def parseJsonValue : Nat → List Char → Option (Val × List Char)
  | 0, _ => Option.none
  | fuel + 1, cs =>
    match skipWs cs with
    | [] => Option.none
    | c :: r =>
      if c == '"' then
        match parseJsonString (r.length + 1) r with
        | some (s, rest) => some (.str s, rest)
        | Option.none => Option.none
      else if c == 'n' then
        match r with
        | 'u' :: 'l' :: 'l' :: rest => some (.none, rest)
        | _ => Option.none
      else if c == 't' then
        match r with
        | 'r' :: 'u' :: 'e' :: rest => some (.bool true, rest)
        | _ => Option.none
      else if c == 'f' then
        match r with
        | 'a' :: 'l' :: 's' :: 'e' :: rest => some (.bool false, rest)
        | _ => Option.none
      else if c == '-' then
        match parseDigits r with
        | ([], _) => Option.none
        | ('0' :: _ :: _, _) => Option.none
        | (ds, rest) => some (.int (-(digitsToInt ds)), rest)
      else if c.isDigit then
        match parseDigits (c :: r) with
        | ('0' :: _ :: _, _) => Option.none
        | (ds, rest) => some (.int (digitsToInt ds), rest)
      else if c == '[' then
        match skipWs r with
        | ']' :: rest => some (.list [], rest)
        | r2 =>
          match parseJsonItems fuel r2 with
          | some (xs, rest) => some (.list xs, rest)
          | Option.none => Option.none
      else if c == '\x7b' then
        match skipWs r with
        | '\x7d' :: rest => some (.dict [], rest)
        | r2 =>
          match parseJsonMembers fuel r2 with
          | some (kvs, rest) => some (.dict kvs, rest)
          | Option.none => Option.none
      else Option.none

/-- Parse comma-separated array items up to (and consuming) `]`. -/
def parseJsonItems : Nat → List Char → Option (List Val × List Char)
  | 0, _ => Option.none
  | fuel + 1, cs =>
    match parseJsonValue fuel cs with
    | some (v, rest) =>
      (match skipWs rest with
       | ',' :: r2 =>
         (match parseJsonItems fuel r2 with
          | some (xs, rest2) => some (v :: xs, rest2)
          | Option.none => Option.none)
       | ']' :: r2 => some ([v], r2)
       | _ => Option.none)
    | Option.none => Option.none

/-- Parse comma-separated object members up to (and consuming) the closing
brace. -/
def parseJsonMembers : Nat → List Char → Option (List (String × Val) × List Char)
  | 0, _ => Option.none
  | fuel + 1, cs =>
    match skipWs cs with
    | '"' :: r =>
      (match parseJsonString (r.length + 1) r with
       | some (k, rest) =>
         (match skipWs rest with
          | ':' :: r2 =>
            (match parseJsonValue fuel r2 with
             | some (v, rest2) =>
               (match skipWs rest2 with
                | ',' :: r3 =>
                  (match parseJsonMembers fuel r3 with
                   | some (kvs, rest3) => some ((k, v) :: kvs, rest3)
                   | Option.none => Option.none)
                | '\x7d' :: r3 => some ([(k, v)], r3)
                | _ => Option.none)
             | Option.none => Option.none)
          | _ => Option.none)
       | Option.none => Option.none)
    | _ => Option.none
end

def jsonLoads (s : String) : Option Val :=
  match parseJsonValue (s.length + 1) s.data with
  | some (v, rest) => if skipWs rest == [] then some v else Option.none
  | Option.none => Option.none

/-! ## `utils/formatting.py`

The formatters in `utils/formatting.py` are written against *raw dicts*:
every field access in their bodies is `argument.get(...)` /
`argument[...]` on the single parameter.  The tools, however, call them
with *dataclass instances* (`format_activity_summary(Activity.from_dict(x))`
and so on).  A dataclass has no `get` method, so on any non-dict argument
the first access raises `AttributeError` — before any output is produced.
`RtVal` is the runtime type of that argument: either a plain value (dicts
included) or one of the dataclass records. -/

/-- The runtime argument a formatter can receive. -/
inductive RtVal where
  | val (v : Val)
  | activityRec (a : Activity)
  | wellnessRec (w : WellnessEntry)
  | workoutRec (w : Workout)
  | folderRec (f : Folder)
  | customItemRec (c : CustomItem)
  | athleteRec (a : Athlete)
  | sportSettingsRec (s : AthleteSportSettings)
  | messageRec (m : ActivityMessage)

/-- `entries.get(k) is not None`. -/
def hasNN (d : Obj) (k : String) : Bool := !(lookupVal d k).isNone

/-- `len(v)` — `TypeError` for values without length. -/
def pyLen : Val → PyResult Int
  | .str s => .ok s.length
  | .list xs => .ok xs.length
  | .dict d => .ok d.length
  | _ => .error .typeError

/-- `", ".join(xs)`: `TypeError` when an element is not a string. -/
def joinComma : List Val → PyResult String
  | [] => .ok ""
  | [.str s] => .ok s
  | .str s :: r => (joinComma r).map (fun t => s ++ ", " ++ t)
  | _ => .error .typeError

/-- `str.capitalize()`. -/
def pyCapitalize (s : String) : String :=
  match s.data with
  | [] => ""
  | c :: r => String.mk (c.toUpper :: r.map Char.toLower)

/-- Validity bounds used by `datetime.fromisoformat` on a full timestamp. -/
def isoFieldsOk (mo dy hr mi se : Int) : Bool :=
  1 ≤ mo && mo ≤ 12 && 1 ≤ dy && dy ≤ 31 && hr < 24 && mi < 60 && se < 60

/-- An optional trailing UTC-offset suffix (`±HH:MM`) or nothing. -/
def isoOffsetOk : List Char → Bool
  | [] => true
  | sgn :: h1 :: h2 :: ':' :: m1 :: m2 :: [] =>
    (sgn == '+' || sgn == '-') && [h1, h2, m1, m2].all Char.isDigit
  | _ => false

/-- `datetime.fromisoformat(s)` followed by
`strftime("%Y-%m-%d %H:%M:%S")`, for the timestamp shapes this API emits
(`YYYY-MM-DD{T/space}HH:MM:SS` with an optional `±HH:MM` offset);
`Option.none` models the `ValueError` on anything else. -/
def isoToDatetimeSeconds (s : String) : Option String :=
  match s.data with
  | y1 :: y2 :: y3 :: y4 :: '-' :: m1 :: m2 :: '-' :: d1 :: d2 :: sep ::
      h1 :: h2 :: ':' :: n1 :: n2 :: ':' :: s1 :: s2 :: rest =>
    if [y1, y2, y3, y4, m1, m2, d1, d2, h1, h2, n1, n2, s1, s2].all Char.isDigit
        && (sep == 'T' || sep == ' ')
        && isoFieldsOk (digitsToInt [m1, m2]) (digitsToInt [d1, d2])
             (digitsToInt [h1, h2]) (digitsToInt [n1, n2]) (digitsToInt [s1, s2])
        && isoOffsetOk rest then
      some (String.mk [y1, y2, y3, y4, '-', m1, m2, '-', d1, d2, ' ',
                       h1, h2, ':', n1, n2, ':', s1, s2])
    else Option.none
  | _ => Option.none

/-- Same, but rendered with `strftime("%Y-%m-%d %H:%M")` (no seconds),
as `format_search_result` does. -/
def isoToDatetimeMinutes (s : String) : Option String :=
  (isoToDatetimeSeconds s).map (fun t => String.mk (t.data.take 16))

/-- The `start_time` massage shared by `format_activity_summary` and
(`%H:%M` variant) `format_search_result`: ISO strings longer than 10
characters are reformatted; a `ValueError` leaves the value unchanged. -/
def reformatStart (fmt : String → Option String) (v : Val) : Val :=
  match v with
  | .str s =>
    if s.length > 10 then
      match fmt (pyReplace s "Z" "+00:00") with
      | some t => .str t
      | Option.none => .str s
    else .str s
  | other => other

/-- `format_activity_summary` (`formatting.py` line 12).  On a dict the
full report string; on anything else — in particular the `Activity`
records the tools pass — `activity.get(...)` raises `AttributeError`. -/
def format_activity_summary (activity : RtVal) : PyResult String :=
  match activity with
  | .val (.dict d) =>
    let start_time := reformatStart isoToDatetimeSeconds
      (getD d "startTime" (getD d "start_date" (.str "Unknown")))
    let rpe0 := lookupVal d "perceived_exertion"
    let rpe1 := if rpe0.isNone then getD d "icu_rpe" (.str "N/A") else rpe0
    let rpeStr := match rpe1 with
      | .int n => pyStr (.int n) ++ "/10"
      | .bool b => pyStr (.bool b) ++ "/10"
      | v => pyStr v
    let feel0 := getD d "feel" (.str "N/A")
    let feelStr := match feel0 with
      | .int n => pyStr (.int n) ++ "/5"
      | .bool b => pyStr (.bool b) ++ "/5"
      | v => pyStr v
    .ok ("\nActivity: " ++ pyStr (getD d "name" (.str "Unnamed"))
      ++ "\nID: " ++ pyStr (getD d "id" (.str "N/A"))
      ++ "\nType: " ++ pyStr (getD d "type" (.str "Unknown"))
      ++ "\nDate: " ++ pyStr start_time
      ++ "\nDescription: " ++ pyStr (getD d "description" (.str "N/A"))
      ++ "\nDistance: " ++ pyStr (getD d "distance" (.int 0)) ++ " meters"
      ++ "\nDuration: " ++ pyStr (getD d "duration" (getD d "elapsed_time" (.int 0)))
      ++ " seconds"
      ++ "\nMoving Time: " ++ pyStr (getD d "moving_time" (.str "N/A")) ++ " seconds"
      ++ "\nElevation Gain: "
      ++ pyStr (getD d "elevationGain" (getD d "total_elevation_gain" (.int 0)))
      ++ " meters"
      ++ "\nElevation Loss: " ++ pyStr (getD d "total_elevation_loss" (.str "N/A"))
      ++ " meters"
      ++ "\n\nPower Data:"
      ++ "\nAverage Power: "
      ++ pyStr (getD d "avgPower" (getD d "icu_average_watts"
                 (getD d "average_watts" (.str "N/A"))))
      ++ " watts"
      ++ "\nWeighted Avg Power: " ++ pyStr (getD d "icu_weighted_avg_watts" (.str "N/A"))
      ++ " watts"
      ++ "\nTraining Load: "
      ++ pyStr (getD d "trainingLoad" (getD d "icu_training_load" (.str "N/A")))
      ++ "\nFTP: " ++ pyStr (getD d "icu_ftp" (.str "N/A")) ++ " watts"
      ++ "\nKilojoules: " ++ pyStr (getD d "icu_joules" (.str "N/A"))
      ++ "\nIntensity: " ++ pyStr (getD d "icu_intensity" (.str "N/A"))
      ++ "\nPower:HR Ratio: " ++ pyStr (getD d "icu_power_hr" (.str "N/A"))
      ++ "\nVariability Index: " ++ pyStr (getD d "icu_variability_index" (.str "N/A"))
      ++ "\n\nHeart Rate Data:"
      ++ "\nAverage Heart Rate: "
      ++ pyStr (getD d "avgHr" (getD d "average_heartrate" (.str "N/A"))) ++ " bpm"
      ++ "\nMax Heart Rate: " ++ pyStr (getD d "max_heartrate" (.str "N/A")) ++ " bpm"
      ++ "\nLTHR: " ++ pyStr (getD d "lthr" (.str "N/A")) ++ " bpm"
      ++ "\nResting HR: " ++ pyStr (getD d "icu_resting_hr" (.str "N/A")) ++ " bpm"
      ++ "\nDecoupling: " ++ pyStr (getD d "decoupling" (.str "N/A"))
      ++ "\n\nOther Metrics:"
      ++ "\nCadence: " ++ pyStr (getD d "average_cadence" (.str "N/A")) ++ " rpm"
      ++ "\nCalories: " ++ pyStr (getD d "calories" (.str "N/A"))
      ++ "\nAverage Speed: " ++ pyStr (getD d "average_speed" (.str "N/A")) ++ " m/s"
      ++ "\nMax Speed: " ++ pyStr (getD d "max_speed" (.str "N/A")) ++ " m/s"
      ++ "\nAverage Stride: " ++ pyStr (getD d "average_stride" (.str "N/A"))
      ++ "\nL/R Balance: " ++ pyStr (getD d "avg_lr_balance" (.str "N/A"))
      ++ "\nWeight: " ++ pyStr (getD d "icu_weight" (.str "N/A")) ++ " kg"
      ++ "\nRPE: " ++ rpeStr
      ++ "\nSession RPE: " ++ pyStr (getD d "session_rpe" (.str "N/A"))
      ++ "\nFeel: " ++ feelStr
      ++ "\n\nEnvironment:"
      ++ "\nTrainer: " ++ pyStr (getD d "trainer" (.str "N/A"))
      ++ "\nAverage Temp: " ++ pyStr (getD d "average_temp" (.str "N/A")) ++ "°C"
      ++ "\nMin Temp: " ++ pyStr (getD d "min_temp" (.str "N/A")) ++ "°C"
      ++ "\nMax Temp: " ++ pyStr (getD d "max_temp" (.str "N/A")) ++ "°C"
      ++ "\nAvg Wind Speed: " ++ pyStr (getD d "average_wind_speed" (.str "N/A"))
      ++ " km/h"
      ++ "\nHeadwind %: " ++ pyStr (getD d "headwind_percent" (.str "N/A")) ++ "%"
      ++ "\nTailwind %: " ++ pyStr (getD d "tailwind_percent" (.str "N/A")) ++ "%"
      ++ "\n\nTraining Metrics:"
      ++ "\nFitness (CTL): " ++ pyStr (getD d "icu_ctl" (.str "N/A"))
      ++ "\nFatigue (ATL): " ++ pyStr (getD d "icu_atl" (.str "N/A"))
      ++ "\nTRIMP: " ++ pyStr (getD d "trimp" (.str "N/A"))
      ++ "\nPolarization Index: " ++ pyStr (getD d "polarization_index" (.str "N/A"))
      ++ "\nPower Load: " ++ pyStr (getD d "power_load" (.str "N/A"))
      ++ "\nHR Load: " ++ pyStr (getD d "hr_load" (.str "N/A"))
      ++ "\nPace Load: " ++ pyStr (getD d "pace_load" (.str "N/A"))
      ++ "\nEfficiency Factor: " ++ pyStr (getD d "icu_efficiency_factor" (.str "N/A"))
      ++ "\n\nDevice Info:"
      ++ "\nDevice: " ++ pyStr (getD d "device_name" (.str "N/A"))
      ++ "\nPower Meter: " ++ pyStr (getD d "power_meter" (.str "N/A"))
      ++ "\nFile Type: " ++ pyStr (getD d "file_type" (.str "N/A"))
      ++ "\n")
  | _ => .error .attributeError

/-- `format_athlete_summary` (`formatting.py` line 101); `AttributeError`
on the `Athlete` records the tool passes. -/
def format_athlete_summary (athlete : RtVal) : PyResult String :=
  match athlete with
  | .val (.dict d) =>
    .ok ("Athlete: " ++ pyStr (getD d "name" (.str "N/A"))
      ++ "\nID: " ++ pyStr (getD d "id" (.str "N/A"))
      ++ "\nWeight: " ++ pyStr (getD d "weight" (.str "N/A")) ++ " kg"
      ++ "\nResting HR: "
      ++ pyStr (getD d "restingHr" (getD d "resting_hr" (.str "N/A"))) ++ " bpm"
      ++ "\nLocation: " ++ pyStr (getD d "location" (.str "N/A"))
      ++ "\nTimezone: " ++ pyStr (getD d "timezone" (.str "N/A"))
      ++ "\nStatus: " ++ pyStr (getD d "status" (.str "N/A")))
  | _ => .error .attributeError

/-- `format_sport_settings` (`formatting.py` line 112); `AttributeError`
on the `AthleteSportSettings` records the tool passes. -/
def format_sport_settings (setting : RtVal) : PyResult String :=
  match setting with
  | .val (.dict d) =>
    let zones := getD d "zones" (getD d "powerZones" (.list []))
    let baseLines :=
      ["Sport: " ++ pyStr (getD d "type" (.str "N/A")),
       "FTP: " ++ pyStr (getD d "ftp" (.str "N/A")),
       "LTHR: " ++ pyStr (getD d "lthr" (.str "N/A")),
       "Max HR: " ++ pyStr (getD d "maxHr" (getD d "max_hr" (.str "N/A"))),
       "Pace thresholds: " ++ pyStr (getD d "paceZones" (getD d "pace_zones" (.str "N/A"))),
       "Warmup: " ++ pyStr (getD d "warmup" (.str "N/A")) ++ " s",
       "Cooldown: " ++ pyStr (getD d "cooldown" (.str "N/A")) ++ " s"]
    let allLines := if truthy zones
      then baseLines ++ ["Zones: " ++ pyStr zones] else baseLines
    .ok (joinSep "\n" allLines)
  | _ => .error .attributeError

/-- `format_search_result` (`formatting.py` line 129); `AttributeError` on
the `Activity` records `search.py` passes. -/
def format_search_result (result : RtVal) : PyResult String :=
  match result with
  | .val (.dict d) => do
    let start := reformatStart isoToDatetimeMinutes
      (getD d "startTime" (getD d "start_date" (.str "N/A")))
    let tags := getD d "tags" (.list [])
    let tagsStr ← match tags with
      | .list xs => joinComma xs
      | v => .ok (pyStr v)
    .ok ("ID: " ++ pyStr (getD d "id" (.str "N/A"))
      ++ " | " ++ pyStr (getD d "name" (.str "Unnamed"))
      ++ " | " ++ pyStr start
      ++ " | " ++ pyStr (getD d "type" (.str "N/A"))
      ++ " | " ++ pyStr (getD d "distance" (.int 0)) ++ " m | Tags: "
      ++ (if tagsStr == "" then "none" else tagsStr))
  | _ => .error .attributeError

/-- `format_folder_summary` (`formatting.py` line 143); `AttributeError`
on the `Folder` records the tool passes. -/
def format_folder_summary (folder : RtVal) : PyResult String :=
  match folder with
  | .val (.dict d) =>
    let workouts := getD d "workouts" (getD d "children" (.list []))
    let count : Int := match workouts with
      | .list xs => xs.length
      | _ => 0
    let names : List Val := match workouts with
      | .list xs => xs.filterMap (fun w => match w with
          | .dict wd => if truthy (lookupVal wd "name")
              then some (lookupVal wd "name") else Option.none
          | .str s => some (.str s)
          | _ => Option.none)
      | _ => []
    let lines :=
      ["Folder: " ++ pyStr (getD d "name" (.str "N/A")),
       "ID: " ++ pyStr (getD d "id" (.str "N/A")),
       "Workouts: " ++ toString count]
      ++ names.map (fun n => "- " ++ pyStr n)
    .ok (joinSep "\n" lines)
  | _ => .error .attributeError

/-- `format_workout` (`formatting.py` line 164); `AttributeError` on the
`Workout` records the tool passes. -/
def format_workout (workout : RtVal) : PyResult String :=
  match workout with
  | .val (.dict d) => do
    let nIntervals ← pyLen (getD d "intervals" (.list []))
    .ok ("\nWorkout: " ++ pyStr (getD d "name" (.str "Unnamed"))
      ++ "\nID: " ++ pyStr (getD d "id" (.str "N/A"))
      ++ "\nDescription: " ++ pyStr (getD d "description" (.str "No description"))
      ++ "\nSport: " ++ pyStr (getD d "sport" (getD d "type" (.str "Unknown")))
      ++ "\nType: " ++ pyStr (getD d "type" (.str "N/A"))
      ++ "\nFolder ID: " ++ pyStr (getD d "folderId" (getD d "folder_id" (.str "N/A")))
      ++ "\nTags: " ++ pyStr (getD d "tags" (.str "N/A"))
      ++ "\nIndoor: " ++ pyStr (getD d "indoor" (.str "N/A"))
      ++ "\nDistance: " ++ pyStr (getD d "distance" (.str "N/A"))
      ++ "\nColor: " ++ pyStr (getD d "color" (.str "N/A"))
      ++ "\nDuration: " ++ pyStr (getD d "duration" (.int 0)) ++ " seconds"
      ++ "\nTSS: " ++ pyStr (getD d "tss" (.str "N/A"))
      ++ "\nIntervals: " ++ toString nIntervals
      ++ "\n")
  | _ => .error .attributeError

/-- `format_activity_message` (`formatting.py` line 451); `AttributeError`
on the `ActivityMessage` records the tool passes. -/
def format_activity_message (message : RtVal) : PyResult String :=
  match message with
  | .val (.dict d) =>
    let created := reformatStart isoToDatetimeSeconds (getD d "created" (.str "Unknown"))
    .ok ("Author: " ++ pyStr (getD d "name" (.str "Unknown"))
      ++ "\nDate: " ++ pyStr created
      ++ "\nType: " ++ pyStr (getD d "type" (.str "TEXT"))
      ++ "\nContent: " ++ pyStr (getD d "content" (.str "")))
  | _ => .error .attributeError

/-- JSON string escaping used by `json.dumps`. -/
def jsonEscape (s : String) : String :=
  s.data.foldl (fun acc c =>
    if c == '"' then acc ++ "\\\""
    else if c == '\\' then acc ++ "\\\\"
    else if c == '\n' then acc ++ "\\n"
    else if c == '\t' then acc ++ "\\t"
    else if c == '\r' then acc ++ "\\r"
    else acc.push c) ""

mutual
/-- `json.dumps(v, indent=2)` at a given current indentation level. -/
def jsonDumps2 : Nat → Val → String
  | _, .none => "null"
  | _, .bool true => "true"
  | _, .bool false => "false"
  | _, .int n => toString n
  | _, .str s => "\"" ++ jsonEscape s ++ "\""
  | _, .list [] => "[]"
  | lvl, .list (x :: xs) =>
    "[\n" ++ jsonDumps2Items (lvl + 2) (x :: xs) ++ "\n"
      ++ String.mk (List.replicate lvl ' ') ++ "]"
  | _, .dict [] => "\x7b\x7d"
  | lvl, .dict (p :: ps) =>
    "\x7b\n" ++ jsonDumps2Members (lvl + 2) (p :: ps) ++ "\n"
      ++ String.mk (List.replicate lvl ' ') ++ "\x7d"

def jsonDumps2Items : Nat → List Val → String
  | _, [] => ""
  | lvl, [x] => String.mk (List.replicate lvl ' ') ++ jsonDumps2 lvl x
  | lvl, x :: xs =>
    String.mk (List.replicate lvl ' ') ++ jsonDumps2 lvl x ++ ",\n"
      ++ jsonDumps2Items lvl xs

def jsonDumps2Members : Nat → List (String × Val) → String
  | _, [] => ""
  | lvl, [(k, v)] =>
    String.mk (List.replicate lvl ' ') ++ "\"" ++ jsonEscape k ++ "\": "
      ++ jsonDumps2 lvl v
  | lvl, (k, v) :: ps =>
    String.mk (List.replicate lvl ' ') ++ "\"" ++ jsonEscape k ++ "\": "
      ++ jsonDumps2 lvl v ++ ",\n" ++ jsonDumps2Members lvl ps
end

/-- `format_custom_item_details` (`formatting.py` line 467);
`AttributeError` on the `CustomItem` records the tools pass. -/
def format_custom_item_details (item : RtVal) : PyResult String :=
  match item with
  | .val (.dict d) =>
    let lines0 :=
      ["Custom Item Details:", "",
       "ID: " ++ pyStr (getD d "id" (.str "N/A")),
       "Name: " ++ pyStr (getD d "name" (.str "N/A")),
       "Type: " ++ pyStr (getD d "type" (.str "N/A"))]
    let lines1 := lines0 ++ (if truthy (lookupVal d "description")
      then ["Description: " ++ pyStr (lookupVal d "description")] else [])
    let lines2 := lines1 ++ (if truthy (lookupVal d "visibility")
      then ["Visibility: " ++ pyStr (lookupVal d "visibility")] else [])
    let lines3 := lines2 ++ (if hasNN d "index"
      then ["Index: " ++ pyStr (lookupVal d "index")] else [])
    let lines4 := lines3 ++ (if hasNN d "hide_script"
      then ["Hide Script: " ++ pyStr (lookupVal d "hide_script")] else [])
    let lines5 := lines4 ++ (if truthy (lookupVal d "content")
      then ["Content: " ++ jsonDumps2 0 (lookupVal d "content")] else [])
    .ok (joinSep "\n" lines5)
  | _ => .error .attributeError

/-! ### `format_wellness_entry` and its section helpers
(`formatting.py` lines 183–387) -/

/-- `_format_training_metrics(entries)` (`formatting.py` line 183). -/
def formatTrainingMetrics (entries : Obj) : List String :=
  ([("ctl", "Fitness (CTL)"), ("atl", "Fatigue (ATL)"), ("rampRate", "Ramp Rate"),
    ("ctlLoad", "CTL Load"), ("atlLoad", "ATL Load")] : List (String × String)).filterMap
    fun p => if hasNN entries p.1
      then some ("- " ++ p.2 ++ ": " ++ pyStr (lookupVal entries p.1))
      else Option.none

/-- `_format_sport_info(entries)` (`formatting.py` line 198).  Iterating a
truthy non-iterable `sportInfo` raises `TypeError`; characters of a string
or keys of a dict are skipped by the `isinstance(sport, dict)` guard. -/
def formatSportInfo (entries : Obj) : PyResult (List String) :=
  if truthy (lookupVal entries "sportInfo") then
    match getD entries "sportInfo" (.list []) with
    | .list xs => .ok (xs.filterMap fun sport => match sport with
        | .dict sd =>
          if hasNN sd "eftp" then
            some ("- " ++ pyStr (lookupVal sd "type") ++ ": eFTP = "
              ++ pyStr (lookupVal sd "eftp"))
          else Option.none
        | _ => Option.none)
    | .str _ => .ok []
    | .dict _ => .ok []
    | _ => .error .typeError
  else .ok []

/-- `_format_vital_signs(entries)` (`formatting.py` line 208). -/
def formatVitalSigns (entries : Obj) : List String :=
  ([("weight", "Weight", "kg"), ("restingHR", "Resting HR", "bpm"),
    ("hrv", "HRV", ""), ("hrvSDNN", "HRV SDNN", ""),
    ("avgSleepingHR", "Average Sleeping HR", "bpm"), ("spO2", "SpO2", "%"),
    ("systolic", "Systolic BP", ""), ("diastolic", "Diastolic BP", ""),
    ("respiration", "Respiration", "breaths/min"),
    ("bloodGlucose", "Blood Glucose", "mmol/L"),
    ("lactate", "Lactate", "mmol/L"), ("vo2max", "VO2 Max", "ml/kg/min"),
    ("bodyFat", "Body Fat", "%"), ("abdomen", "Abdomen", "cm"),
    ("baevskySI", "Baevsky Stress Index", "")] :
      List (String × String × String)).filterMap fun t =>
    let (k, label, unit) := t
    if hasNN entries k then
      if k == "systolic" && hasNN entries "diastolic" then
        some ("- Blood Pressure: " ++ pyStr (lookupVal entries "systolic") ++ "/"
          ++ pyStr (lookupVal entries "diastolic") ++ " mmHg")
      else if k != "systolic" && k != "diastolic" then
        some ("- " ++ label ++ ": " ++ pyStr (lookupVal entries k)
          ++ (if unit != "" then " " ++ unit else ""))
      else Option.none
    else Option.none

/-- Half-even rounding of `num/den` to two decimals, rendered as Python's
`f"{...:.2f}"` does for the exactly-representable quotients this API
produces (`sleepSecs / 3600`). -/
def fmtDiv2 (num den : Int) : String :=
  let p := num * 100
  let q := p.fdiv den
  let r := p - q * den
  let rounded := if 2 * r < den then q
    else if 2 * r > den then q + 1
    else if q.emod 2 == 0 then q else q + 1
  let a := rounded.natAbs
  (if rounded < 0 then "-" else "") ++ toString (a / 100) ++ "." ++ padNum 2 (a % 100)

/-- `_format_sleep_recovery(entries)` (`formatting.py` line 239). -/
def formatSleepRecovery (entries : Obj) : PyResult (List String) := do
  let sleepHours : Option String ←
    if hasNN entries "sleepSecs" then
      match lookupVal entries "sleepSecs" with
      | .int n => .ok (some (fmtDiv2 n 3600))
      | .bool b => .ok (some (fmtDiv2 (if b then 1 else 0) 3600))
      | _ => .error .typeError
    else if hasNN entries "sleepHours" then
      .ok (some (pyStr (lookupVal entries "sleepHours")))
    else .ok Option.none
  let l1 := match sleepHours with
    | some h => ["  Sleep: " ++ h ++ " hours"]
    | Option.none => []
  let l2 := l1 ++ (if hasNN entries "sleepQuality" then
      let qv := lookupVal entries "sleepQuality"
      let qt := match qv with
        | .int 1 => "Great"
        | .int 2 => "Good"
        | .int 3 => "Average"
        | .int 4 => "Poor"
        | .bool true => "Great"
        | v => pyStr v
      ["  Sleep Quality: " ++ pyStr qv ++ " (" ++ qt ++ ")"]
    else [])
  let l3 := l2 ++ (if hasNN entries "sleepScore" then
      ["  Device Sleep Score: " ++ pyStr (lookupVal entries "sleepScore") ++ "/100"]
    else [])
  let l4 := l3 ++ (if hasNN entries "readiness" then
      ["  Readiness: " ++ pyStr (lookupVal entries "readiness") ++ "/10"]
    else [])
  .ok l4

/-- `_format_menstrual_tracking(entries)` (`formatting.py` line 265). -/
def formatMenstrualTracking (entries : Obj) : List String :=
  (if hasNN entries "menstrualPhase" then
    ["  Menstrual Phase: " ++ pyCapitalize (pyStr (lookupVal entries "menstrualPhase"))]
  else [])
  ++ (if hasNN entries "menstrualPhasePredicted" then
    ["  Predicted Phase: "
      ++ pyCapitalize (pyStr (lookupVal entries "menstrualPhasePredicted"))]
  else [])

/-- `_format_subjective_feelings(entries)` (`formatting.py` line 277). -/
def formatSubjectiveFeelings (entries : Obj) : List String :=
  ([("soreness", "Soreness"), ("fatigue", "Fatigue"), ("stress", "Stress"),
    ("mood", "Mood"), ("motivation", "Motivation"),
    ("injury", "Injury Level")] : List (String × String)).filterMap fun p =>
    if hasNN entries p.1
      then some ("  " ++ p.2 ++ ": " ++ pyStr (lookupVal entries p.1) ++ "/10")
      else Option.none

/-- `_format_nutrition_hydration(entries)` (`formatting.py` line 293). -/
def formatNutritionHydration (entries : Obj) : List String :=
  (([("kcalConsumed", "Calories Consumed"),
     ("hydrationVolume", "Hydration Volume")] : List (String × String)).filterMap
    fun p => if hasNN entries p.1
      then some ("- " ++ p.2 ++ ": " ++ pyStr (lookupVal entries p.1))
      else Option.none)
  ++ (if hasNN entries "hydration" then
      ["  Hydration Score: " ++ pyStr (lookupVal entries "hydration") ++ "/10"]
    else [])

/-- A section block of `format_wellness_entry`: header, items, blank line —
emitted only when there are items. -/
def wellnessSection (header : String) (items : List String) : List String :=
  if items.isEmpty then [] else header :: items ++ [""]

/-- `format_wellness_entry` (`formatting.py` line 309).  On a dict the full
report; on the `WellnessEntry` records the tool passes, `entries.get(...)`
raises `AttributeError`. -/
def format_wellness_entry (entries : RtVal) : PyResult String :=
  match entries with
  | .val (.dict d) => do
    let sportLines ← formatSportInfo d
    let sleepLines ← formatSleepRecovery d
    let lines :=
      ["Wellness Data:", "Date: " ++ pyStr (getD d "id" (.str "N/A")), ""]
      ++ wellnessSection "Training Metrics:" (formatTrainingMetrics d)
      ++ wellnessSection "Sport-Specific Info:" sportLines
      ++ wellnessSection "Vital Signs:" (formatVitalSigns d)
      ++ wellnessSection "Sleep & Recovery:" sleepLines
      ++ wellnessSection "Menstrual Tracking:" (formatMenstrualTracking d)
      ++ wellnessSection "Subjective Feelings:" (formatSubjectiveFeelings d)
      ++ wellnessSection "Nutrition & Hydration:" (formatNutritionHydration d)
      ++ (if hasNN d "steps"
          then ["Activity:", "- Steps: " ++ pyStr (lookupVal d "steps"), ""]
          else [])
      ++ (if truthy (lookupVal d "comments")
          then ["Comments: " ++ pyStr (lookupVal d "comments")] else [])
      ++ (if hasKey d "locked"
          then ["Status: " ++ (if truthy (lookupVal d "locked")
                then "Locked" else "Unlocked")]
          else [])
    .ok (joinSep "\n" lines)
  | _ => .error .attributeError

/-! ## Tool layer

Each tool is modelled as a pure function from its (already resolved)
parameters and the upstream response(s) to the pair of
(result-or-uncaught-exception, list of issued upstream requests).  The
athlete id and date parameters arrive already resolved —
`resolve_athlete_id` / `resolve_date_params` live in `utils/validation.py`,
which is not part of `src/` (their failure path returns an error string
before any request, so it can only shorten the request list). -/

/-- One call to `make_intervals_request` (`api/client.py`, outside
`src/`): the URL, HTTP method, query params and JSON body the tool sent. -/
structure Request where
  url : String
  method : String := "GET"
  params : Val := .none
  data : Val := .none

/-- `isinstance(result, dict) and "error" in result` — the upstream-error
test used by `activities.py` / `wellness.py` / `custom_items.py` /
`seasons.py`. -/
def isErrorDict (v : Val) : Bool :=
  match v with
  | .dict d => hasKey d "error"
  | _ => false

/-- `isinstance(result, dict) and result.get("error")` — the (truthiness)
variant used by `workouts.py` / `search.py` / `athlete.py`. -/
def isErrorDictTruthy (v : Val) : Bool :=
  match v with
  | .dict d => truthy (lookupVal d "error")
  | _ => false

/-- `result.get("message", default)` on the error dict. -/
def errMessage (v : Val) (dflt : Val) : Val :=
  match v with
  | .dict d => getD d "message" dflt
  | _ => dflt

/-- Python `xs[:k]` (for the truncation `activities[:limit]`): negative
`k` counts from the end. -/
def pySlice (k : Int) (xs : List Val) : List Val :=
  if 0 ≤ k then xs.take k.toNat
  else xs.take (xs.length - min xs.length k.natAbs)

/-! ### `tools/activities.py` -/

/-- First list-valued entry of a dict (the `for _key, value in
result.items(): ... break` scan in `_parse_activities_from_result`). -/
def firstListVal : Obj → Option (List Val)
  | [] => Option.none
  | (_, v) :: r => match v with
    | .list xs => some xs
    | _ => firstListVal r

/-- `_parse_activities_from_result` (`activities.py` line 23). -/
def parseActivitiesFromResult (result : Val) : List Val :=
  match result with
  | .list xs => xs.filter Val.isDict
  | .dict d =>
    let fromList := match firstListVal d with
      | some xs => xs.filter Val.isDict
      | Option.none => []
    if fromList.isEmpty
        && (hasKey d "name" || hasKey d "startTime" || hasKey d "distance")
      then [.dict d] else fromList
  | _ => []

/-- `_filter_named_activities` (`activities.py` line 42).  The comprehension
calls `.get` on each item, so a non-dict item raises `AttributeError`
(reachable via `_fetch_more_activities`, whose raw list is not
dict-filtered). -/
def filterNamed : List Val → PyResult (List Val)
  | [] => .ok []
  | a :: r => match a with
    | .dict d =>
      let keep := truthy (lookupVal d "name")
        && !valEqStr (lookupVal d "name") "Unnamed"
      (filterNamed r).map (fun t => if keep then a :: t else t)
    | _ => .error .attributeError

/-- `_fetch_more_activities` (`activities.py` line 51): parse the *query*
start date (an unparseable date raises `ValueError`, uncaught), subtract 60
and 1 days, and issue one request for that window unless the formatted
window is degenerate under Python string `>=`.  A list response is filtered
to named activities; any other shape yields `[]`. -/
def fetchMoreActivities (athlete_id start_date : String) (api_limit : Int)
    (more_result : Val) : PyResult (List Val × List Request) := do
  let oldest ← parseISODate start_date
  let older_start := (oldest.subDays 60).fmt
  let older_end := (oldest.subDays 1).fmt
  if pyStrGe older_start older_end then
    .ok ([], [])
  else
    let req : Request :=
      { url := "/athlete/" ++ athlete_id ++ "/activities",
        params := .dict [("oldest", .str older_start),
                         ("newest", .str older_end),
                         ("limit", .int api_limit)] }
    match more_result with
    | .list xs => (filterNamed xs).map (fun l => (l, [req]))
    | _ => .ok ([], [req])

/-- The per-item loop of `_format_activities_response`: each dict item is
parsed and formatted inside `try/except (TypeError, KeyError, ValueError)`
with the inline `[Activity {id}: failed to format]` placeholder; the
`AttributeError` that `format_activity_summary` raises on an `Activity`
record is not caught and aborts the whole listing. -/
def formatActivitiesLoop : List Val → String → PyResult String
  | [], acc => .ok acc
  | a :: r, acc => match a with
    | .dict d => do
      let s ← catchTKV
        ((format_activity_summary (.activityRec (Activity.fromDict d))).map
          (fun s => s ++ "\n"))
        ("[Activity " ++ pyStr (getD d "id" (.str "unknown"))
          ++ ": failed to format]\n")
      formatActivitiesLoop r (acc ++ s)
    | _ => formatActivitiesLoop r (acc ++ "Invalid activity format: " ++ pyStr a ++ "\n\n")

/-- `_format_activities_response` (`activities.py` line 81). -/
def formatActivitiesResponse (activities : List Val) (athlete_id : String)
    (include_unnamed : Bool) : PyResult String :=
  if activities.isEmpty then
    if include_unnamed then
      .ok ("No valid activities found for athlete " ++ athlete_id
        ++ " in the specified date range.")
    else
      .ok ("No named activities found for athlete " ++ athlete_id
        ++ " in the specified date range. Try with include_unnamed=True to see all activities.")
  else
    formatActivitiesLoop activities "Activities:\n\n"

/-- `get_activities` (`activities.py` line 109).  `primary` is the response
to the first request and `more_result` the response `_fetch_more_activities`
would receive if it issues its request. -/
def get_activities (athlete_id start_date end_date : String) (limit : Int)
    (include_unnamed : Bool) (primary more_result : Val) :
    PyResult String × List Request :=
  let api_limit : Int := if !include_unnamed then limit * 3 else limit
  let req1 : Request :=
    { url := "/athlete/" ++ athlete_id ++ "/activities",
      params := .dict [("oldest", .str start_date), ("newest", .str end_date),
                       ("limit", .int api_limit)] }
  if isErrorDict primary then
    (.ok ("Error fetching activities: "
      ++ pyStr (errMessage primary (.str "Unknown error"))), [req1])
  else if !truthy primary then
    (.ok ("No activities found for athlete " ++ athlete_id
      ++ " in the specified date range."), [req1])
  else
    let activities := parseActivitiesFromResult primary
    if activities.isEmpty then
      (.ok ("No valid activities found for athlete " ++ athlete_id
        ++ " in the specified date range."), [req1])
    else if include_unnamed then
      (formatActivitiesResponse (pySlice limit activities) athlete_id true, [req1])
    else
      match filterNamed activities with
      | .error e => (.error e, [req1])
      | .ok named =>
        if (named.length : Int) < limit then
          match fetchMoreActivities athlete_id start_date api_limit more_result with
          | .error e => (.error e, [req1])
          | .ok (more, reqs2) =>
            (formatActivitiesResponse (pySlice limit (named ++ more))
              athlete_id false, req1 :: reqs2)
        else
          (formatActivitiesResponse (pySlice limit named) athlete_id false, [req1])

/-! ### `tools/wellness.py` -/

/-- The `entry_data` construction of `get_wellness_data` (`wellness.py`
line 67): ensure the date key is set so `WellnessEntry.id` is populated —
an entry without an `id` key gets the dict's date key appended as `id`,
an entry that already has one is passed through unchanged. -/
def mkWellnessEntryData (date_str : String) (dd : Obj) : Obj :=
  if hasKey dd "id" then dd else withKey dd "id" (.str date_str)

/-- The dict-response loop of `get_wellness_data` (`wellness.py` lines
63–76): per-date entries get the date key injected as `id` when missing,
then are parsed and formatted inside `try/except (TypeError, KeyError,
ValueError)` with the `[Wellness data for {date}: failed to format]`
placeholder.  The accumulated summary and the processed-entry count are
returned; an uncaught exception (`AttributeError` from the formatter)
aborts the loop. -/
def wellnessDictLoop : Obj → String → Nat → PyResult (String × Nat)
  | [], acc, n => .ok (acc, n)
  | (date_str, dataV) :: r, acc, n => match dataV with
    | .dict dd => do
      let entry_data := mkWellnessEntryData date_str dd
      let s ← catchTKV
        ((do
          let w ← WellnessEntry.fromDict entry_data
          let t ← format_wellness_entry (.wellnessRec w)
          (.ok (t ++ "\n\n") : PyResult String)))
        ("[Wellness data for " ++ date_str ++ ": failed to format]\n\n")
      wellnessDictLoop r (acc ++ s) (n + 1)
    | _ => wellnessDictLoop r acc n

/-- The list-response loop of `get_wellness_data` (`wellness.py` lines
77–89); the placeholder names `entry.get("id", "unknown")`. -/
def wellnessListLoop : List Val → String → Nat → PyResult (String × Nat)
  | [], acc, n => .ok (acc, n)
  | entry :: r, acc, n => match entry with
    | .dict dd => do
      let s ← catchTKV
        ((do
          let w ← WellnessEntry.fromDict dd
          let t ← format_wellness_entry (.wellnessRec w)
          (.ok (t ++ "\n\n") : PyResult String)))
        ("[Wellness data for " ++ pyStr (getD dd "id" (.str "unknown"))
          ++ ": failed to format]\n\n")
      wellnessListLoop r (acc ++ s) (n + 1)
    | _ => wellnessListLoop r acc n

/-- `get_wellness_data` (`wellness.py` line 21). -/
def get_wellness_data (athlete_id start_date end_date : String)
    (result : Val) : PyResult String × List Request :=
  let req : Request :=
    { url := "/athlete/" ++ athlete_id ++ "/wellness",
      params := .dict [("oldest", .str start_date), ("newest", .str end_date)] }
  if isErrorDict result then
    (.ok ("Error fetching wellness data: " ++ pyStr (errMessage result .none)),
     [req])
  else if !truthy result then
    (.ok ("No wellness data found for athlete " ++ athlete_id
      ++ " in the specified date range."), [req])
  else
    let looped : PyResult (String × Nat) := match result with
      | .dict d => wellnessDictLoop d "Wellness Data:\n\n" 0
      | .list xs => wellnessListLoop xs "Wellness Data:\n\n" 0
      | _ => .ok ("Wellness Data:\n\n", 0)
    match looped with
    | .error e => (.error e, [req])
    | .ok (summary, n) =>
      if n == 0 then (.ok (summary ++ "[No wellness data found]\n\n"), [req])
      else (.ok summary, [req])

/-! ### `tools/workouts.py` -/

/-- The per-item loop of `list_workouts` (`workouts.py` lines 50–55): a
parse/format failure is logged and the item *silently skipped* — no
placeholder is appended (its own test
`test_list_workouts_parse_failure_shows_placeholder` expects
`[Workout 2: failed to format]`). -/
def listWorkoutsLoop : List Val → PyResult (List String)
  | [] => .ok []
  | w :: r => match w with
    | .dict wd => do
      let o ← catchTKV
        ((do
          let wk ← Workout.fromDict wd
          let s ← format_workout (.workoutRec wk)
          (.ok (some (pyStrip s)) : PyResult (Option String))))
        Option.none
      let rest ← listWorkoutsLoop r
      .ok (match o with
        | some s => s :: rest
        | Option.none => rest)
    | _ => listWorkoutsLoop r

/-- `list_workouts` (`workouts.py` line 22). -/
def list_workouts (athlete_id : String) (result : Val) :
    PyResult String × List Request :=
  let req : Request := { url := "/athlete/" ++ athlete_id ++ "/workouts" }
  if isErrorDictTruthy result then
    (.ok ("Error listing workouts: "
      ++ pyStr (errMessage result (.str "Unknown error"))), [req])
  else
    let workouts := match result with
      | .list xs => xs
      | _ => []
    if workouts.isEmpty then (.ok "No workouts in library.", [req])
    else
      match listWorkoutsLoop workouts with
      | .error e => (.error e, [req])
      | .ok formatted =>
        if formatted.isEmpty then (.ok "No workouts in library.", [req])
        else
          (.ok ("Workout library:\n\n" ++ joinSep "\n" formatted), [req])

/-- The per-item loop of `list_folders` (`workouts.py` lines 87–92): same
silent-skip policy as `list_workouts`. -/
def listFoldersLoop : List Val → PyResult (List String)
  | [] => .ok []
  | f :: r => match f with
    | .dict fd => do
      let o ← catchTKV
        ((do
          let fl ← Folder.fromDict fd
          let s ← format_folder_summary (.folderRec fl)
          (.ok (some s) : PyResult (Option String))))
        Option.none
      let rest ← listFoldersLoop r
      .ok (match o with
        | some s => s :: rest
        | Option.none => rest)
    | _ => listFoldersLoop r

/-- `list_folders` (`workouts.py` line 59). -/
def list_folders (athlete_id : String) (result : Val) :
    PyResult String × List Request :=
  let req : Request := { url := "/athlete/" ++ athlete_id ++ "/folders" }
  if isErrorDictTruthy result then
    (.ok ("Error listing folders: "
      ++ pyStr (errMessage result (.str "Unknown error"))), [req])
  else
    let folders := match result with
      | .list xs => xs
      | _ => []
    if folders.isEmpty then (.ok "No folders found.", [req])
    else
      match listFoldersLoop folders with
      | .error e => (.error e, [req])
      | .ok formatted =>
        if formatted.isEmpty then (.ok "No folders found.", [req])
        else
          (.ok ("Folders:\n\n" ++ joinSep "\n\n" formatted), [req])

/-- `create_bulk_workouts` (`workouts.py` line 96): its request trace — no
request when the workout list is falsy. -/
def create_bulk_workouts_requests (athlete_id : String) (workouts : Val) :
    List Request :=
  if !truthy workouts then []
  else [{ url := "/athlete/" ++ athlete_id ++ "/workouts/bulk",
          method := "POST", data := workouts }]

/-! ### `tools/custom_items.py` -/

/-- The shared tail of `create_custom_item` after the request body is
built (`custom_items.py` lines 140–158): error dict → error string;
falsy/non-dict → "Unexpected response"; otherwise the created item is
parsed and formatted inside `try/except (TypeError, KeyError,
ValueError)` — the `AttributeError` from `format_custom_item_details` on a
`CustomItem` record is not caught. -/
def createCustomItemFinish (athlete_id : String) (body : Obj) (result : Val) :
    PyResult String × List Request :=
  let req : Request :=
    { url := "/athlete/" ++ athlete_id ++ "/custom-item", method := "POST",
      data := .dict body }
  if isErrorDict result then
    (.ok ("Error creating custom item: " ++ pyStr (errMessage result .none)), [req])
  else if !truthy result || !result.isDict then
    (.ok "Error: Unexpected response when creating custom item.", [req])
  else
    match result with
    | .dict rd =>
      (catchTKV
        ((format_custom_item_details (.customItemRec (CustomItem.fromDict rd))).map
          (fun details => "Successfully created custom item:\n\n" ++ details))
        ("Custom item created (ID: " ++ pyStr (getD rd "id" (.str "unknown"))
          ++ "), but failed to format response."), [req])
    | _ => (.ok "Error: Unexpected response when creating custom item.", [req])

/-- `create_custom_item` (`custom_items.py` line 100).  The `content`
argument is declared `dict | None` but may arrive as a string at runtime;
a string is passed through `json.loads`, and a parse failure returns the
validation error *before any request is made*. -/
def create_custom_item (name item_type athlete_id : String)
    (description : Option String) (content : Option Val)
    (visibility : Option String) (result : Val) :
    PyResult String × List Request :=
  let data0 : Obj := [("name", .str name), ("type", .str item_type)]
  let data1 : Obj := match description with
    | some dsc => data0 ++ [("description", .str dsc)]
    | Option.none => data0
  let afterContent : Except String Obj := match content with
    | some (.str s) =>
      (match jsonLoads s with
       | some parsed => .ok (data1 ++ [("content", parsed)])
       | Option.none => .error "Error: content must be valid JSON when passed as a string.")
    | some v => .ok (data1 ++ [("content", v)])
    | Option.none => .ok data1
  match afterContent with
  | .error msg => (.ok msg, [])
  | .ok data2 =>
    let data3 : Obj := match visibility with
      | some vis => data2 ++ [("visibility", .str vis)]
      | Option.none => data2
    createCustomItemFinish athlete_id data3 result

/-- The shared tail of `update_custom_item` (`custom_items.py` lines
207–225). -/
def updateCustomItemFinish (athlete_id : String) (item_id : Int) (body : Obj)
    (result : Val) : PyResult String × List Request :=
  let req : Request :=
    { url := "/athlete/" ++ athlete_id ++ "/custom-item/" ++ toString item_id,
      method := "PUT", data := .dict body }
  if isErrorDict result then
    (.ok ("Error updating custom item: " ++ pyStr (errMessage result .none)), [req])
  else if !truthy result || !result.isDict then
    (.ok "Error: Unexpected response when updating custom item.", [req])
  else
    match result with
    | .dict rd =>
      (catchTKV
        ((format_custom_item_details (.customItemRec (CustomItem.fromDict rd))).map
          (fun details => "Successfully updated custom item:\n\n" ++ details))
        ("Custom item updated (ID: " ++ pyStr (getD rd "id" (.str "unknown"))
          ++ "), but failed to format response."), [req])
    | _ => (.ok "Error: Unexpected response when updating custom item.", [req])

/-- `update_custom_item` (`custom_items.py` line 161): same string-content
validation as `create_custom_item`, body from the optional arguments
only. -/
def update_custom_item (item_id : Int) (athlete_id : String)
    (name item_type description : Option String) (content : Option Val)
    (visibility : Option String) (result : Val) :
    PyResult String × List Request :=
  let data0 : Obj := []
  let data1 : Obj := match name with
    | some n => data0 ++ [("name", .str n)]
    | Option.none => data0
  let data2 : Obj := match item_type with
    | some t => data1 ++ [("type", .str t)]
    | Option.none => data1
  let data3 : Obj := match description with
    | some dsc => data2 ++ [("description", .str dsc)]
    | Option.none => data2
  let afterContent : Except String Obj := match content with
    | some (.str s) =>
      (match jsonLoads s with
       | some parsed => .ok (data3 ++ [("content", parsed)])
       | Option.none => .error "Error: content must be valid JSON when passed as a string.")
    | some v => .ok (data3 ++ [("content", v)])
    | Option.none => .ok data3
  match afterContent with
  | .error msg => (.ok msg, [])
  | .ok data4 =>
    let data5 : Obj := match visibility with
      | some vis => data4 ++ [("visibility", .str vis)]
      | Option.none => data4
    updateCustomItemFinish athlete_id item_id data5 result

/-- `get_custom_items` (`custom_items.py` line 23): builds its rows from
the raw dicts, so it is total; modelled here by its request trace only. -/
def get_custom_items_requests (athlete_id : String) : List Request :=
  [{ url := "/athlete/" ++ athlete_id ++ "/custom-item" }]

/-- `get_custom_item_by_id` (`custom_items.py` line 66): one GET. -/
def get_custom_item_by_id_requests (athlete_id : String) (item_id : Int) :
    List Request :=
  [{ url := "/athlete/" ++ athlete_id ++ "/custom-item/" ++ toString item_id }]

/-- `delete_custom_item` (`custom_items.py` line 228): one DELETE. -/
def delete_custom_item_requests (athlete_id : String) (item_id : Int) :
    List Request :=
  [{ url := "/athlete/" ++ athlete_id ++ "/custom-item/" ++ toString item_id,
     method := "DELETE" }]

/-! ### `tools/search.py` -/

/-- The result comprehension of `search_activities` (`search.py` lines
57–59): *no* try/except — the `AttributeError` from
`format_search_result(Activity.from_dict(a))` propagates (its own test
expects a `[Search result a2: failed to format]` placeholder instead). -/
def searchResultsLoop : List Val → PyResult (List String)
  | [] => .ok []
  | a :: r => match a with
    | .dict ad => do
      let s ← format_search_result (.activityRec (Activity.fromDict ad))
      let rest ← searchResultsLoop r
      .ok (s :: rest)
    | _ => searchResultsLoop r

/-- `search_activities` (`search.py` line 22). -/
def search_activities (athlete_id : String) (q : Option String)
    (limit : Option Int) (result : Val) : PyResult String × List Request :=
  let params0 : Obj := match q with
    | some qs => if qs != "" then [("q", .str qs)] else []
    | Option.none => []
  let params1 : Obj := params0 ++ (match limit with
    | some l => [("limit", .int l)]
    | Option.none => [])
  let req : Request :=
    { url := "/athlete/" ++ athlete_id ++ "/activities/search",
      params := if params1.isEmpty then .none else .dict params1 }
  if isErrorDictTruthy result then
    (.ok ("Error searching activities: "
      ++ pyStr (errMessage result (.str "Unknown error"))), [req])
  else
    let activities := match result with
      | .list xs => xs
      | _ => []
    match searchResultsLoop activities with
    | .error e => (.error e, [req])
    | .ok formatted =>
      if formatted.isEmpty then (.ok "No activities found.", [req])
      else
        (.ok ("Search results:\n\n" ++ joinSep "\n" formatted), [req])

/-- `search_intervals` (`search.py` line 66): request trace (same
no-try/except formatting loop as `search_activities` on the response). -/
def search_intervals_requests (athlete_id : String)
    (duration_seconds : Option Int) (intensity_min intensity_max : Option Int)
    (interval_type : Option String) (reps limit : Option Int) : List Request :=
  let add (o : Option Int) (k : String) : Obj := match o with
    | some n => [(k, Val.int n)]
    | Option.none => []
  let params : Obj := add duration_seconds "duration"
    ++ add intensity_min "intensityMin" ++ add intensity_max "intensityMax"
    ++ (match interval_type with
        | some t => if t != "" then [("type", Val.str t)] else []
        | Option.none => [])
    ++ add reps "reps" ++ add limit "limit"
  [{ url := "/athlete/" ++ athlete_id ++ "/activities/interval-search",
     params := if params.isEmpty then .none else .dict params }]

/-! ### Request traces of the remaining single-call tools -/

/-- `get_activity_details` (`activities.py` line 176): one GET. -/
def get_activity_details_requests (activity_id : String) : List Request :=
  [{ url := "/activity/" ++ activity_id }]

/-- `get_activity_intervals` (`activities.py` line 221): one GET. -/
def get_activity_intervals_requests (activity_id : String) : List Request :=
  [{ url := "/activity/" ++ activity_id ++ "/intervals" }]

/-- `get_activity_streams` (`activities.py` line 257): one GET with a
`types` parameter defaulting to the common stream types. -/
def get_activity_streams_requests (activity_id : String)
    (stream_types : Option String) : List Request :=
  let types := match stream_types with
    | some t => if t != "" then t
        else "time,watts,heartrate,cadence,altitude,distance,velocity_smooth"
    | Option.none => "time,watts,heartrate,cadence,altitude,distance,velocity_smooth"
  [{ url := "/activity/" ++ activity_id ++ "/streams",
     params := .dict [("types", .str types)] }]

/-- `get_activity_messages` (`activities.py` line 335): one GET. -/
def get_activity_messages_requests (activity_id : String) : List Request :=
  [{ url := "/activity/" ++ activity_id ++ "/messages" }]

/-- `add_activity_message` (`activities.py` line 377): one POST. -/
def add_activity_message_requests (activity_id content : String) : List Request :=
  [{ url := "/activity/" ++ activity_id ++ "/messages", method := "POST",
     data := .dict [("content", .str content)] }]

/-- `get_athlete` (`athlete.py` line 26): one GET. -/
def get_athlete_requests (athlete_id : String) : List Request :=
  [{ url := "/athlete/" ++ athlete_id }]

/-- `get_sport_settings` (`athlete.py` line 59): one GET, with the sport
appended to the URL when given. -/
def get_sport_settings_requests (athlete_id : String)
    (sport_type : Option String) : List Request :=
  let url := "/athlete/" ++ athlete_id ++ "/sport-settings"
  [{ url := match sport_type with
      | some st => if st != "" then url ++ "/" ++ st else url
      | Option.none => url }]

/-- `get_training_plan` (`athlete.py` line 114): one GET.  (The module
imports `format_training_plan` / `AthleteTrainingPlan`, names that do not
resolve against the `utils/formatting.py` / `utils/schemas.py` in `src/`.) -/
def get_training_plan_requests (athlete_id : String) : List Request :=
  [{ url := "/athlete/" ++ athlete_id ++ "/training-plan" }]

/-- `list_seasons` (`seasons.py` line 24): one GET over the events
endpoint with `category=SEASON_START`. -/
def list_seasons_requests (athlete_id start_date end_date : String) :
    List Request :=
  [{ url := "/athlete/" ++ athlete_id ++ "/events",
     params := .dict [("oldest", .str start_date), ("newest", .str end_date),
                      ("category", .str "SEASON_START")] }]

/-- `create_season` (`seasons.py` line 84): one POST. -/
def create_season_requests (athlete_id name start_date : String)
    (end_date description color : Option String) : List Request :=
  let data0 : Obj :=
    [("start_date_local", .str (start_date ++ "T00:00:00")),
     ("category", .str "SEASON_START"), ("name", .str name)]
  let data1 := data0 ++ (match end_date with
    | some e => [("end_date_local", Val.str (e ++ "T00:00:00"))]
    | Option.none => [])
  let data2 := data1 ++ (match description with
    | some dsc => [("description", Val.str dsc)]
    | Option.none => [])
  let data3 := data2 ++ (match color with
    | some c => [("color", Val.str c)]
    | Option.none => [])
  [{ url := "/athlete/" ++ athlete_id ++ "/events", method := "POST",
     data := .dict data3 }]

/-- `update_season` (`seasons.py` line 144): one PUT. -/
def update_season_requests (athlete_id event_id : String)
    (name start_date end_date description color : Option String) : List Request :=
  let data0 : Obj := [("category", .str "SEASON_START")]
  let data1 := data0 ++ (match name with
    | some n => [("name", Val.str n)]
    | Option.none => [])
  let data2 := data1 ++ (match start_date with
    | some s => [("start_date_local", Val.str (s ++ "T00:00:00"))]
    | Option.none => [])
  let data3 := data2 ++ (match end_date with
    | some e => [("end_date_local", Val.str (e ++ "T00:00:00"))]
    | Option.none => [])
  let data4 := data3 ++ (match description with
    | some dsc => [("description", Val.str dsc)]
    | Option.none => [])
  let data5 := data4 ++ (match color with
    | some c => [("color", Val.str c)]
    | Option.none => [])
  [{ url := "/athlete/" ++ athlete_id ++ "/events/" ++ event_id,
     method := "PUT", data := .dict data5 }]

/-- Modelled from the spec: `tools/events.py` is not under `src/` (only
`server.py` imports and the tests reference it).  §4.3 of the spec has each
event tool "perform exactly one logical operation against the upstream
API"; the supplementary-call allowance is specific to the activity
listing.  So each event read/write tool issues exactly one request. -/
def event_tool_requests (url method : String) : List Request :=
  [{ url := url, method := method }]

/-- Modelled from the spec: `create_bulk_events` (in the missing
`tools/events.py`) per Scenario E — an item missing the required
`start_date_local` key aborts with a validation error *before any network
call*; otherwise one bulk POST is issued. -/
def create_bulk_events_requests (athlete_id : String) (events : List Obj) :
    List Request :=
  if events.all (fun e => hasKey e "start_date_local") then
    [{ url := "/athlete/" ++ athlete_id ++ "/events/bulk", method := "POST",
       data := .list (events.map Val.dict) }]
  else []

/-! ### Spec-side definitions for the backfill claim (C4)

The claim (and spec §4.3) words the supplementary window as "the 60 days
preceding the earliest fetched activity".  These definitions follow those
words, to be compared against what `_fetch_more_activities` actually
computes (a window anchored at the *query* start date). -/

/-- The earliest `start_date` among the fetched activity dicts, under the
ISO-string order the code itself uses for dates. -/
def spec_earliest_start (activities : List Val) : Option String :=
  (activities.filterMap fun a => match a with
    | .dict d => match lookupVal d "start_date" with
      | .str s => some s
      | _ => Option.none
    | _ => Option.none).foldl
    (fun acc s => match acc with
      | Option.none => some s
      | some t => if charListLt s.data t.data then some s else some t)
    Option.none

/-- The `oldest` bound of the supplementary window as the claim words it:
60 days before the earliest fetched activity. -/
def spec_backfill_oldest (activities : List Val) : Option String :=
  match spec_earliest_start activities with
  | some s =>
    (match parseISODate s with
     | .ok dt => some (dt.subDays 60).fmt
     | .error _ => Option.none)
  | Option.none => Option.none

/-- `k in out` as a substring test on the produced report (used to state
which lines an output contains). -/
def containsSub (needle hay : String) : Bool := pyInStr needle hay

/-! ## Theorems -/

/-- Looking up a key just appended to a dict that did not contain it. -/
theorem lookupVal_append_of_not_hasKey (d : Obj) (k : String) (v : Val)
    (h : hasKey d k = false) : lookupVal (d ++ [(k, v)]) k = v := by
  induction d with
  | nil => simp [lookupVal]
  | cons p r ih =>
    rw [hasKey] at h
    rcases Bool.or_eq_false_iff.mp h with ⟨h1, h2⟩
    rw [List.cons_append, lookupVal, h1]
    exact ih h2

/-- A successfully parsed `WellnessEntry` stores the raw `id` value. -/
theorem wellnessEntry_fromDict_id (e : Obj) (w : WellnessEntry)
    (hw : WellnessEntry.fromDict e = .ok w) : w.id = lookupVal e "id" := by
  unfold WellnessEntry.fromDict at hw
  cases h : dictItems (pyOr (lookupVal e "sportInfo") (.list [])) with
  | error ex => rw [h] at hw; simp [Bind.bind, Except.bind] at hw
  | ok sports =>
    rw [h] at hw
    simp only [Bind.bind, Except.bind, Except.ok.injEq] at hw
    rw [← hw]

/-- C5: for every entity type's `from_dict` constructor (Activity,
ActivityInterval, ActivityIntervalGroup, IntervalsData, ActivityMessage,
WellnessEntry, Athlete, AthleteSportSettings, CustomItem, Workout, Folder,
EventResponse), the empty dict parses without raising into the
all-defaults record (every scalar field `None`, every list field empty,
every nested record absent). -/
theorem C5_fromDict_empty_all_defaults :
    Activity.fromDict [] = ({} : Activity)
    ∧ ActivityInterval.fromDict [] = ({} : ActivityInterval)
    ∧ ActivityIntervalGroup.fromDict [] = ({} : ActivityIntervalGroup)
    ∧ IntervalsData.fromDict [] = .ok ({} : IntervalsData)
    ∧ ActivityMessage.fromDict [] = ({} : ActivityMessage)
    ∧ WellnessEntry.fromDict [] = .ok ({} : WellnessEntry)
    ∧ Athlete.fromDict [] = ({} : Athlete)
    ∧ AthleteSportSettings.fromDict [] = ({} : AthleteSportSettings)
    ∧ CustomItem.fromDict [] = ({} : CustomItem)
    ∧ Workout.fromDict [] = .ok ({} : Workout)
    ∧ Folder.fromDict [] = .ok ({} : Folder)
    ∧ EventResponse.fromDict [] = .ok ({} : EventResponse) :=
  ⟨rfl, rfl, rfl, rfl, rfl, rfl, rfl, rfl, rfl, rfl, rfl, rfl⟩

/-- C1 (claim refuted by the code — the tools do *not* always return a
string): on a perfectly well-formed upstream response (the spec's own
Scenario A input), `get_activities` raises an uncaught `AttributeError`
instead of returning a string, because `_format_activities_response`
passes the `Activity` *record* to the dict-based
`format_activity_summary`, whose `activity.get(...)` fails, and the
`except (TypeError, KeyError, ValueError)` handler does not catch
`AttributeError`.  The second conjunct isolates the failing call. -/
theorem C1_tool_raises_on_wellformed_response :
    (get_activities "i1" "2024-01-01" "2024-01-31" 1 true
      (.list [.dict [("name", .str "Morning Ride"), ("id", .int 123),
        ("type", .str "Ride"), ("startTime", .str "2024-01-01T08:00:00Z"),
        ("distance", .int 1000), ("duration", .int 3600)]])
      (.list [])).1 = .error .attributeError
    ∧ format_activity_summary (.activityRec (Activity.fromDict
        [("name", .str "Morning Ride"), ("id", .int 123)]))
      = .error .attributeError :=
  ⟨rfl, rfl⟩

/-- C2 (claim refuted by the code): on the spec's Scenario B response
`{"2024-01-01": {"ctl": 75, "sleepSecs": 28800}}`, `get_wellness_data`
raises an uncaught `AttributeError` (the `WellnessEntry` record reaches
the dict-based `format_wellness_entry`) instead of returning the report.
The parse step itself succeeds (second conjunct), and the dict-based
formatter applied to the raw entry — what the claim describes — would
contain exactly `"Date: 2024-01-01"` and `"Sleep: 8.00 hours"` (third
conjunct). -/
theorem C2_wellness_scenario_raises :
    (get_wellness_data "i1" "2024-01-01" "2024-01-31"
      (.dict [("2024-01-01",
        .dict [("ctl", .int 75), ("sleepSecs", .int 28800)])])).1
      = .error .attributeError
    ∧ (WellnessEntry.fromDict
        (withKey [("ctl", .int 75), ("sleepSecs", .int 28800)] "id"
          (.str "2024-01-01"))).map WellnessEntry.sleep_secs
      = .ok (.int 28800)
    ∧ (format_wellness_entry (.val (.dict
        (withKey [("ctl", .int 75), ("sleepSecs", .int 28800)] "id"
          (.str "2024-01-01"))))).map
        (fun out => (containsSub "Date: 2024-01-01" out,
                     containsSub "Sleep: 8.00 hours" out))
      = .ok (true, true) := by
  refine ⟨rfl, rfl, ?_⟩
  simp [format_wellness_entry, withKey, formatTrainingMetrics, formatSportInfo,
    formatVitalSigns, formatSleepRecovery, formatMenstrualTracking,
    formatSubjectiveFeelings, formatNutritionHydration, wellnessSection,
    lookupVal, getD, hasNN, hasKey, truthy, pyOr, fmtDiv2, joinSep, containsSub,
    pyInStr, pyStr, Except.map, Bind.bind, Except.bind, Val.isNone,
    containsChars, isPrefixChars, padNum]
  decide

/-- C3 (claim refuted by the code): per-item failure isolation is broken
in two distinct ways.  (1) In `get_wellness_data`, one malformed entry
(`sportInfo` a non-iterable) *does* get its inline placeholder, but every
*well-formed* entry kills the whole listing with an uncaught
`AttributeError` from the formatter, so "N well-formed + 1 malformed"
raises instead of producing N + 1 entries.  (2) In `list_workouts`, a
malformed workout (bad nested `workout_doc` enum) is silently dropped —
no placeholder at all, contradicting its own test
(`test_list_workouts_parse_failure_shows_placeholder`). -/
theorem C3_per_item_isolation_broken :
    (get_wellness_data "i1" "2024-01-01" "2024-01-31"
      (.list [.dict [("id", .str "2024-01-01"), ("weight", .int 70)],
              .dict [("id", .str "2024-01-02"), ("sportInfo", .int 5)]])).1
      = .error .attributeError
    ∧ (get_wellness_data "i1" "2024-01-01" "2024-01-31"
        (.list [.dict [("id", .str "2024-01-02"), ("sportInfo", .int 5)]])).1
      = .ok "Wellness Data:\n\n[Wellness data for 2024-01-02: failed to format]\n\n"
    ∧ (list_workouts "i1"
        (.list [.dict [("id", .int 2), ("name", .str "Bad Workout"),
          ("workout_doc", .dict [("target", .str "BOGUS")])]])).1
      = .ok "No workouts in library." := by
  refine ⟨rfl, ?_, ?_⟩
  · simp [get_wellness_data, wellnessListLoop, isErrorDict, truthy, errMessage,
      getD, WellnessEntry.fromDict, dictItems, pyOr, lookupVal, hasKey, catchTKV,
      pyStr, Bind.bind, Except.bind, Except.map]
  · simp [list_workouts, listWorkoutsLoop, isErrorDictTruthy, lookupVal, truthy,
      Workout.fromDict, WorkoutDoc.fromDict, firstNonNone, Val.isNone, hasKey,
      enumParse, workoutTargetVals, catchTKV, Bind.bind, Except.bind, Except.map]

/-- C10: in the dict branch of `get_wellness_data`, an entry without an
`id` key gets the date key inserted as `id` before normalization — so the
parsed `WellnessEntry.id` is exactly the date key — while an entry that
already has an `id` key is passed to normalization unchanged. -/
theorem C10_wellness_date_key_becomes_id (date_str : String) (data : Obj) :
    (hasKey data "id" = true → mkWellnessEntryData date_str data = data)
    ∧ (hasKey data "id" = false →
        mkWellnessEntryData date_str data = withKey data "id" (.str date_str)
        ∧ (WellnessEntry.fromDict (mkWellnessEntryData date_str data)).map
            WellnessEntry.id
          = (WellnessEntry.fromDict (mkWellnessEntryData date_str data)).map
            (fun _ => .str date_str)) := by
  constructor
  · intro h
    simp [mkWellnessEntryData, h]
  · intro h
    have hmk : mkWellnessEntryData date_str data
        = withKey data "id" (.str date_str) := by
      simp [mkWellnessEntryData, h]
    refine ⟨hmk, ?_⟩
    cases hw : WellnessEntry.fromDict (mkWellnessEntryData date_str data) with
    | error e => simp [Except.map]
    | ok w =>
      have hid := wellnessEntry_fromDict_id _ _ hw
      rw [hmk, withKey,
        lookupVal_append_of_not_hasKey data "id" (.str date_str) h] at hid
      simp [Except.map, hid]

/-- C10 witness: both branches at concrete inputs — an entry carrying its
own `id` passes through unchanged, and an `id`-less entry under the date
key `"2024-01-01"` parses to a `WellnessEntry` whose `id` is that date. -/
theorem C10_wellness_date_key_becomes_id_witness :
    mkWellnessEntryData "2024-01-01" [("id", .str "keep"), ("ctl", .int 70)]
      = [("id", .str "keep"), ("ctl", .int 70)]
    ∧ (WellnessEntry.fromDict
        (mkWellnessEntryData "2024-01-01" [("ctl", .int 75)])).map
        WellnessEntry.id = .ok (.str "2024-01-01") := by
  constructor
  · exact (C10_wellness_date_key_becomes_id "2024-01-01"
      [("id", .str "keep"), ("ctl", .int 70)]).1 rfl
  · have h := ((C10_wellness_date_key_becomes_id "2024-01-01"
      [("ctl", .int 75)]).2 rfl).2
    rw [h]
    rfl

/-- C6 counterexample: the claim fails on the code at two concrete inputs.
`Athlete.location` is aliased with `or`, not `_first`: with value `""`,
legacy-only (`city`) and canonical-only (`location`) inputs normalize
*differently* (`""` vs `None`).  And for a `_first` field, when both keys
are present with a null canonical value, the canonical value does not win:
`{"average_heartrate": None, "avgHr": 100}` normalizes to `100`. -/
theorem C6_counterexample_alias_asymmetry :
    ¬ ((Athlete.fromDict [("location", .str "")]).location
        = (Athlete.fromDict [("city", .str "")]).location)
    ∧ ¬ ((Activity.fromDict
          [("average_heartrate", Val.none), ("avgHr", .int 100)]).average_heartrate
        = Val.none) := by
  constructor
  · intro h
    exact Val.noConfusion (h : Val.none = Val.str "")
  · intro h
    exact Val.noConfusion (h : Val.int 100 = Val.none)

/-- C6 as amended: for every field aliased through `_first`, supplying only
a legacy key yields the same normalized record as supplying the canonical
key with the same value, and when both are present the canonical key wins
*provided its value is non-null* (a null canonical value falls back to the
legacy key); `_get_list` aliases behave the same with "is a list" in place
of "non-null".  `Athlete.location` is excluded: it is resolved by
truthiness (`or`), as the counterexample shows. -/
theorem C6_alias_first_match :
    (∀ v w : Val,
      Activity.fromDict [("startTime", v)] = Activity.fromDict [("start_date", v)]
      ∧ Activity.fromDict [("start_date_local", v)]
          = Activity.fromDict [("start_date", v)]
      ∧ (v.isNone = false → ∀ u : Val,
          Activity.fromDict [("start_date", v), ("startTime", w), ("start_date_local", u)]
            = Activity.fromDict [("start_date", v)]))
    ∧ (∀ v w : Val,
      Activity.fromDict [("duration", v)] = Activity.fromDict [("elapsed_time", v)]
      ∧ (v.isNone = false →
          Activity.fromDict [("elapsed_time", v), ("duration", w)]
            = Activity.fromDict [("elapsed_time", v)]))
    ∧ (∀ v w : Val,
      Activity.fromDict [("elevationGain", v)]
          = Activity.fromDict [("total_elevation_gain", v)]
      ∧ (v.isNone = false →
          Activity.fromDict [("total_elevation_gain", v), ("elevationGain", w)]
            = Activity.fromDict [("total_elevation_gain", v)]))
    ∧ (∀ v w : Val,
      Activity.fromDict [("avgHr", v)] = Activity.fromDict [("average_heartrate", v)]
      ∧ (v.isNone = false →
          Activity.fromDict [("average_heartrate", v), ("avgHr", w)]
            = Activity.fromDict [("average_heartrate", v)]))
    ∧ (∀ v w : Val,
      Activity.fromDict [("trainingLoad", v)]
          = Activity.fromDict [("icu_training_load", v)]
      ∧ (v.isNone = false →
          Activity.fromDict [("icu_training_load", v), ("trainingLoad", w)]
            = Activity.fromDict [("icu_training_load", v)]))
    ∧ (∀ v w : Val,
      Activity.fromDict [("avgPower", v)]
          = Activity.fromDict [("icu_average_watts", v)]
      ∧ Activity.fromDict [("average_watts", v)]
          = Activity.fromDict [("icu_average_watts", v)]
      ∧ (v.isNone = false → ∀ u : Val,
          Activity.fromDict
            [("icu_average_watts", v), ("avgPower", w), ("average_watts", u)]
            = Activity.fromDict [("icu_average_watts", v)]))
    ∧ (∀ v w : Val,
      WellnessEntry.fromDict [("restingHr", v)]
          = WellnessEntry.fromDict [("restingHR", v)]
      ∧ (v.isNone = false →
          WellnessEntry.fromDict [("restingHR", v), ("restingHr", w)]
            = WellnessEntry.fromDict [("restingHR", v)]))
    ∧ (∀ v w : Val,
      Athlete.fromDict [("icu_weight", v)] = Athlete.fromDict [("weight", v)]
      ∧ (v.isNone = false →
          Athlete.fromDict [("weight", v), ("icu_weight", w)]
            = Athlete.fromDict [("weight", v)]))
    ∧ (∀ v w : Val,
      Athlete.fromDict [("restingHr", v)] = Athlete.fromDict [("icu_resting_hr", v)]
      ∧ Athlete.fromDict [("resting_hr", v)]
          = Athlete.fromDict [("icu_resting_hr", v)]
      ∧ (v.isNone = false → ∀ u : Val,
          Athlete.fromDict
            [("icu_resting_hr", v), ("restingHr", w), ("resting_hr", u)]
            = Athlete.fromDict [("icu_resting_hr", v)]))
    ∧ (∀ v w : Val,
      AthleteSportSettings.fromDict [("maxHr", v)]
          = AthleteSportSettings.fromDict [("max_hr", v)]
      ∧ (v.isNone = false →
          AthleteSportSettings.fromDict [("max_hr", v), ("maxHr", w)]
            = AthleteSportSettings.fromDict [("max_hr", v)]))
    ∧ (∀ v w : Val,
      AthleteSportSettings.fromDict [("warmup", v)]
          = AthleteSportSettings.fromDict [("warmup_time", v)]
      ∧ (v.isNone = false →
          AthleteSportSettings.fromDict [("warmup_time", v), ("warmup", w)]
            = AthleteSportSettings.fromDict [("warmup_time", v)]))
    ∧ (∀ v w : Val,
      AthleteSportSettings.fromDict [("cooldown", v)]
          = AthleteSportSettings.fromDict [("cooldown_time", v)]
      ∧ (v.isNone = false →
          AthleteSportSettings.fromDict [("cooldown_time", v), ("cooldown", w)]
            = AthleteSportSettings.fromDict [("cooldown_time", v)]))
    ∧ (∀ xs ys : List Val,
      AthleteSportSettings.fromDict [("zones", .list xs)]
          = AthleteSportSettings.fromDict [("power_zones", .list xs)]
      ∧ AthleteSportSettings.fromDict [("powerZones", .list xs)]
          = AthleteSportSettings.fromDict [("power_zones", .list xs)]
      ∧ AthleteSportSettings.fromDict
          [("power_zones", .list xs), ("zones", .list ys)]
          = AthleteSportSettings.fromDict [("power_zones", .list xs)])
    ∧ (∀ xs ys : List Val,
      AthleteSportSettings.fromDict [("paceZones", .list xs)]
          = AthleteSportSettings.fromDict [("pace_zones", .list xs)]
      ∧ AthleteSportSettings.fromDict
          [("pace_zones", .list xs), ("paceZones", .list ys)]
          = AthleteSportSettings.fromDict [("pace_zones", .list xs)])
    ∧ (∀ v w : Val,
      Workout.fromDict [("folderId", v)] = Workout.fromDict [("folder_id", v)]
      ∧ (v.isNone = false →
          Workout.fromDict [("folder_id", v), ("folderId", w)]
            = Workout.fromDict [("folder_id", v)]))
    ∧ (∀ v w : Val,
      Workout.fromDict [("duration", v)] = Workout.fromDict [("moving_time", v)]
      ∧ (v.isNone = false →
          Workout.fromDict [("moving_time", v), ("duration", w)]
            = Workout.fromDict [("moving_time", v)]))
    ∧ (∀ v w : Val,
      Workout.fromDict [("tss", v)] = Workout.fromDict [("icu_training_load", v)]
      ∧ (v.isNone = false →
          Workout.fromDict [("icu_training_load", v), ("tss", w)]
            = Workout.fromDict [("icu_training_load", v)]))
    ∧ (∀ v w : Val,
      Workout.fromDict [("workoutDoc", v)] = Workout.fromDict [("workout_doc", v)]
      ∧ (v.isNone = false →
          Workout.fromDict [("workout_doc", v), ("workoutDoc", w)]
            = Workout.fromDict [("workout_doc", v)]))
    ∧ (∀ v w : Val,
      EventWorkout.fromDict [("duration", v)]
          = EventWorkout.fromDict [("moving_time", v)]
      ∧ (v.isNone = false →
          EventWorkout.fromDict [("moving_time", v), ("duration", w)]
            = EventWorkout.fromDict [("moving_time", v)]))
    ∧ (∀ v w : Val,
      EventWorkout.fromDict [("tss", v)]
          = EventWorkout.fromDict [("icu_training_load", v)]
      ∧ (v.isNone = false →
          EventWorkout.fromDict [("icu_training_load", v), ("tss", w)]
            = EventWorkout.fromDict [("icu_training_load", v)]))
    ∧ (∀ v w : Val,
      EventResponse.fromDict [("date", v)]
          = EventResponse.fromDict [("start_date_local", v)]
      ∧ (v.isNone = false →
          EventResponse.fromDict [("start_date_local", v), ("date", w)]
            = EventResponse.fromDict [("start_date_local", v)])) := by
  refine ⟨?_, ?_, ?_, ?_, ?_, ?_, ?_, ?_, ?_, ?_, ?_, ?_, ?_, ?_, ?_, ?_, ?_,
    ?_, ?_, ?_, ?_⟩ <;> intro v w <;>
  first
  | exact ⟨rfl, rfl, rfl⟩
  | exact ⟨rfl, rfl⟩
  | (refine ⟨by cases v <;> rfl, by cases v <;> rfl, fun h u => ?_⟩
     cases v
     · simp [Val.isNone] at h
     all_goals rfl)
  | (refine ⟨by cases v <;> rfl, fun h => ?_⟩
     cases v
     · simp [Val.isNone] at h
     all_goals rfl)

/-- C6 witness: the `average_heartrate`/`avgHr` alias at concrete values —
legacy-only equals canonical-only, and a non-null canonical value wins
over a simultaneously supplied legacy value. -/
theorem C6_alias_first_match_witness :
    Activity.fromDict [("avgHr", .int 150)]
      = Activity.fromDict [("average_heartrate", .int 150)]
    ∧ Activity.fromDict [("average_heartrate", .int 150), ("avgHr", .int 99)]
      = Activity.fromDict [("average_heartrate", .int 150)] := by
  have h := C6_alias_first_match.2.2.2.1 (.int 150) (.int 99)
  exact ⟨h.1, h.2 rfl⟩

/-- Once `create_custom_item` reaches the request stage, exactly one POST
with the assembled body is issued, whatever the upstream returns. -/
theorem createCustomItemFinish_trace (aid : String) (body : Obj) (result : Val) :
    (createCustomItemFinish aid body result).2
      = [{ url := "/athlete/" ++ aid ++ "/custom-item", method := "POST",
           data := .dict body }] := by
  unfold createCustomItemFinish
  split
  · rfl
  split
  · rfl
  split <;> rfl

/-- Once `update_custom_item` reaches the request stage, exactly one PUT
with the assembled body is issued. -/
theorem updateCustomItemFinish_trace (aid : String) (item_id : Int)
    (body : Obj) (result : Val) :
    (updateCustomItemFinish aid item_id body result).2
      = [{ url := "/athlete/" ++ aid ++ "/custom-item/" ++ toString item_id,
           method := "PUT", data := .dict body }] := by
  unfold updateCustomItemFinish
  split
  · rfl
  split
  · rfl
  split <;> rfl

/-- C8: when `content` arrives as a string in `create_custom_item` /
`update_custom_item`: if it parses as JSON, the single outbound request
body carries the *parsed* value under `content` (not the raw string); if
it does not parse, no request at all is made and the returned value is
exactly the validation error string. -/
theorem C8_content_string_validation (name itype aid : String)
    (dsc vis uname utype udsc : Option String) (item_id : Int) (s : String)
    (v : Val) (result : Val) :
    (jsonLoads s = some v →
      (create_custom_item name itype aid dsc (some (.str s)) vis result).2.map
        (fun r => match r.data with
          | .dict b => lookupVal b "content"
          | _ => Val.none) = [v]
      ∧ (update_custom_item item_id aid uname utype udsc (some (.str s)) vis
          result).2.map
        (fun r => match r.data with
          | .dict b => lookupVal b "content"
          | _ => Val.none) = [v])
    ∧ (jsonLoads s = Option.none →
      create_custom_item name itype aid dsc (some (.str s)) vis result
        = (.ok "Error: content must be valid JSON when passed as a string.", [])
      ∧ update_custom_item item_id aid uname utype udsc (some (.str s)) vis
          result
        = (.ok "Error: content must be valid JSON when passed as a string.", [])) := by
  constructor
  · intro h
    constructor
    · cases dsc <;> cases vis <;>
        simp [create_custom_item, h, createCustomItemFinish_trace, lookupVal]
    · cases uname <;> cases utype <;> cases udsc <;> cases vis <;>
        simp [update_custom_item, h, updateCustomItemFinish_trace, lookupVal]
  · intro h
    constructor
    · simp [create_custom_item, h]
    · simp [update_custom_item, h]

/-- C8 witness: Scenario C — the string
`'{"expression":"icu_training_load"}'` is parsed and the outbound body's
`content` is the parsed object; Scenario D — `"not valid json"` makes no
request and returns exactly the validation error. -/
theorem C8_content_string_validation_witness :
    (create_custom_item "Chart" "FITNESS_CHART" "i1" Option.none
        (some (.str "\x7b\"expression\":\"icu_training_load\"\x7d"))
        Option.none (.dict [("id", .int 7)])).2.map
      (fun r => match r.data with
        | .dict b => lookupVal b "content"
        | _ => Val.none)
      = [.dict [("expression", .str "icu_training_load")]]
    ∧ create_custom_item "Chart" "FITNESS_CHART" "i1" Option.none
        (some (.str "not valid json")) Option.none (.dict [("id", .int 7)])
      = (.ok "Error: content must be valid JSON when passed as a string.", []) := by
  constructor
  · exact ((C8_content_string_validation "Chart" "FITNESS_CHART" "i1"
      Option.none Option.none Option.none Option.none Option.none 1
      "\x7b\"expression\":\"icu_training_load\"\x7d"
      (.dict [("expression", .str "icu_training_load")])
      (.dict [("id", .int 7)])).1 rfl).1
  · exact ((C8_content_string_validation "Chart" "FITNESS_CHART" "i1"
      Option.none Option.none Option.none Option.none Option.none 1
      "not valid json" Val.none (.dict [("id", .int 7)])).2 rfl).1

/-- C4 counterexample: the supplementary request does *not* cover "the 60
days preceding the earliest fetched activity".  With query start
2024-01-01 and a single fetched activity dated 2024-03-15 (named, fewer
than `limit = 2`), the issued backfill window starts at 2023-11-02 —
60 days before the *query* start date — while the claim's wording (60
days before the earliest fetched activity, `spec_backfill_oldest`) gives
2024-01-15. -/
theorem C4_counterexample_backfill_window_anchor :
    (get_activities "i1" "2024-01-01" "2024-01-31" 2 false
      (.list [.dict [("name", .str "Ride A"), ("id", .str "a1"),
        ("start_date", .str "2024-03-15")]])
      (.list [])).2.map Request.params
      = [.dict [("oldest", .str "2024-01-01"), ("newest", .str "2024-01-31"),
                ("limit", .int 6)],
         .dict [("oldest", .str "2023-11-02"), ("newest", .str "2023-12-31"),
                ("limit", .int 6)]]
    ∧ spec_backfill_oldest
        [.dict [("name", .str "Ride A"), ("id", .str "a1"),
          ("start_date", .str "2024-03-15")]]
      = some "2024-01-15"
    ∧ ("2023-11-02" : String) ≠ "2024-01-15" := by
  refine ⟨?_, ?_, by decide⟩ <;> rfl

/-- C4 as amended: in `get_activities` with `include_unnamed = false`,
whenever the primary response parses to a non-empty activity list whose
named activities number fewer than `limit` (and the query start date is a
valid ISO date, whose 60-day lookback window is non-degenerate — true of
every real date), exactly one supplementary request is issued, covering
the 60 days preceding the *query start date* (`oldest = start − 60 days`,
`newest = start − 1 day`, same tripled API limit); its named results are
appended to the named first-page results and the combined list is
truncated to `limit` before formatting.  No further request follows. -/
theorem C4_single_backfill_window (athlete_id start_date end_date : String)
    (limit : Int) (primary more_result : Val) (named more : List Val)
    (dt : PyDate)
    (h1 : isErrorDict primary = false)
    (h2 : truthy primary = true)
    (h3 : (parseActivitiesFromResult primary).isEmpty = false)
    (h4 : filterNamed (parseActivitiesFromResult primary) = .ok named)
    (h5 : (named.length : Int) < limit)
    (h6 : parseISODate start_date = .ok dt)
    (h7 : pyStrGe (dt.subDays 60).fmt (dt.subDays 1).fmt = false)
    (h8 : (match more_result with
        | .list xs => filterNamed xs
        | _ => .ok ([] : List Val)) = .ok more) :
    get_activities athlete_id start_date end_date limit false primary
        more_result
      = (formatActivitiesResponse (pySlice limit (named ++ more)) athlete_id
          false,
         [{ url := "/athlete/" ++ athlete_id ++ "/activities",
            params := .dict [("oldest", .str start_date),
              ("newest", .str end_date), ("limit", .int (limit * 3))] },
          { url := "/athlete/" ++ athlete_id ++ "/activities",
            params := .dict [("oldest", .str (dt.subDays 60).fmt),
              ("newest", .str (dt.subDays 1).fmt),
              ("limit", .int (limit * 3))] }]) := by
  have hfm : fetchMoreActivities athlete_id start_date (limit * 3) more_result
      = .ok (more,
        [{ url := "/athlete/" ++ athlete_id ++ "/activities",
           params := .dict [("oldest", .str (dt.subDays 60).fmt),
             ("newest", .str (dt.subDays 1).fmt),
             ("limit", .int (limit * 3))] }]) := by
    unfold fetchMoreActivities
    rw [h6]
    simp only [Bind.bind, Except.bind, h7, Bool.false_eq_true, if_false]
    cases more_result
    case list xs =>
      simp only at h8
      simp [h8, Except.map]
    all_goals
      simp only at h8
      injection h8 with h8
      subst h8
      rfl
  unfold get_activities
  simp only [h1, h2, h3, h4, Bool.false_eq_true, if_false, Bool.not_false,
    if_true, Bool.not_true, ite_false, ite_true]
  rw [if_pos h5, hfm]

/-- C4 witness: a concrete run — query start 2024-01-01, one named
activity on the first page, `limit = 2` — issues exactly the primary
request plus one supplementary request for 2023-11-02..2023-12-31 and
formats the merged, truncated list. -/
theorem C4_single_backfill_window_witness :
    get_activities "i1" "2024-01-01" "2024-01-31" 2 false
      (.list [.dict [("name", .str "Ride A"), ("id", .str "a1")]])
      (.list [])
      = (formatActivitiesResponse
          (pySlice 2 ([.dict [("name", .str "Ride A"), ("id", .str "a1")]] ++ []))
          "i1" false,
         [{ url := "/athlete/i1/activities",
            params := .dict [("oldest", .str "2024-01-01"),
              ("newest", .str "2024-01-31"), ("limit", .int 6)] },
          { url := "/athlete/i1/activities",
            params := .dict [("oldest", .str "2023-11-02"),
              ("newest", .str "2023-12-31"), ("limit", .int 6)] }]) := by
  have h := C4_single_backfill_window "i1" "2024-01-01" "2024-01-31" 2
    (.list [.dict [("name", .str "Ride A"), ("id", .str "a1")]]) (.list [])
    [.dict [("name", .str "Ride A"), ("id", .str "a1")]] []
    { year := 2024, month := 1, day := 1 }
    rfl rfl rfl rfl (by decide) rfl rfl rfl
  simpa using h

/-- `_fetch_more_activities` issues at most one request. -/
theorem fetchMoreActivities_requests_le_one (a s : String) (l : Int) (m : Val)
    (r : List Val × List Request) (h : fetchMoreActivities a s l m = .ok r) :
    r.2.length ≤ 1 := by
  unfold fetchMoreActivities at h
  cases hp : parseISODate s with
  | error e => rw [hp] at h; simp [Bind.bind, Except.bind] at h
  | ok dt =>
    rw [hp] at h
    simp only [Bind.bind, Except.bind] at h
    split at h
    · injection h with h
      subst h
      simp
    · cases m <;> simp only at h
      case list xs =>
        cases hf : filterNamed xs with
        | error e => rw [hf] at h; simp [Except.map] at h
        | ok l2 =>
          rw [hf] at h
          simp only [Except.map, Except.ok.injEq] at h
          subst h
          simp
      all_goals
        injection h with h
        subst h
        simp

/-- `get_activities` issues at most two requests, for every input and
every upstream response. -/
theorem get_activities_requests_le_two (aid sd ed : String) (lim : Int)
    (inc : Bool) (p m : Val) :
    ((get_activities aid sd ed lim inc p m).2).length ≤ 2 := by
  unfold get_activities
  repeat' split <;> try simp
  all_goals
    next pr hfm =>
      simpa using Nat.succ_le_succ
        (fetchMoreActivities_requests_le_one _ _ _ _ _ hfm)

/-- `get_wellness_data` issues exactly one request. -/
theorem get_wellness_data_requests_eq_one (aid sd ed : String) (r : Val) :
    ((get_wellness_data aid sd ed r).2).length = 1 := by
  unfold get_wellness_data
  repeat' split <;> try simp

/-- `list_workouts` issues exactly one request. -/
theorem list_workouts_requests_eq_one (aid : String) (r : Val) :
    ((list_workouts aid r).2).length = 1 := by
  unfold list_workouts
  repeat' split <;> try simp

/-- `list_folders` issues exactly one request. -/
theorem list_folders_requests_eq_one (aid : String) (r : Val) :
    ((list_folders aid r).2).length = 1 := by
  unfold list_folders
  repeat' split <;> try simp

/-- `search_activities` issues exactly one request. -/
theorem search_activities_requests_eq_one (aid : String) (q : Option String)
    (lim : Option Int) (r : Val) :
    ((search_activities aid q lim r).2).length = 1 := by
  unfold search_activities
  repeat' split <;> try simp

/-- `create_custom_item` issues at most one request (none when the string
content fails JSON validation). -/
theorem create_custom_item_requests_le_one (name itype aid : String)
    (dsc : Option String) (content : Option Val) (vis : Option String)
    (r : Val) :
    ((create_custom_item name itype aid dsc content vis r).2).length ≤ 1 := by
  unfold create_custom_item
  repeat' split <;> simp [createCustomItemFinish_trace]

/-- `update_custom_item` issues at most one request. -/
theorem update_custom_item_requests_le_one (item_id : Int) (aid : String)
    (name itype dsc : Option String) (content : Option Val)
    (vis : Option String) (r : Val) :
    ((update_custom_item item_id aid name itype dsc content vis r).2).length
      ≤ 1 := by
  unfold update_custom_item
  repeat' split <;> simp [updateCustomItemFinish_trace]

/-- C9: every modelled tool invocation issues at most two sequential
upstream requests — the primary request plus, only in the
`get_activities` listing case, one optional backfill — and every tool
other than `get_activities` issues at most one (exactly one for the plain
read tools; zero is possible only where validation fails before the
request, i.e. string-content custom items, empty bulk payloads).  A third
upstream call is impossible in every case. -/
theorem C9_at_most_two_requests_per_invocation :
    (∀ (aid sd ed : String) (lim : Int) (inc : Bool) (p m : Val),
      ((get_activities aid sd ed lim inc p m).2).length ≤ 2)
    ∧ (∀ (aid sd ed : String) (r : Val),
      ((get_wellness_data aid sd ed r).2).length ≤ 1)
    ∧ (∀ (aid : String) (r : Val), ((list_workouts aid r).2).length ≤ 1)
    ∧ (∀ (aid : String) (r : Val), ((list_folders aid r).2).length ≤ 1)
    ∧ (∀ (aid : String) (q : Option String) (lim : Option Int) (r : Val),
      ((search_activities aid q lim r).2).length ≤ 1)
    ∧ (∀ (aid : String) (dur imin imax : Option Int) (it : Option String)
        (reps lim : Option Int),
      (search_intervals_requests aid dur imin imax it reps lim).length ≤ 1)
    ∧ (∀ (name itype aid : String) (dsc : Option String)
        (content : Option Val) (vis : Option String) (r : Val),
      ((create_custom_item name itype aid dsc content vis r).2).length ≤ 1)
    ∧ (∀ (item_id : Int) (aid : String) (name itype dsc : Option String)
        (content : Option Val) (vis : Option String) (r : Val),
      ((update_custom_item item_id aid name itype dsc content vis r).2).length
        ≤ 1)
    ∧ (∀ aid : String, (get_custom_items_requests aid).length ≤ 1)
    ∧ (∀ (aid : String) (i : Int),
      (get_custom_item_by_id_requests aid i).length ≤ 1)
    ∧ (∀ (aid : String) (i : Int),
      (delete_custom_item_requests aid i).length ≤ 1)
    ∧ (∀ act : String, (get_activity_details_requests act).length ≤ 1)
    ∧ (∀ act : String, (get_activity_intervals_requests act).length ≤ 1)
    ∧ (∀ (act : String) (t : Option String),
      (get_activity_streams_requests act t).length ≤ 1)
    ∧ (∀ act : String, (get_activity_messages_requests act).length ≤ 1)
    ∧ (∀ act c : String, (add_activity_message_requests act c).length ≤ 1)
    ∧ (∀ aid : String, (get_athlete_requests aid).length ≤ 1)
    ∧ (∀ (aid : String) (st : Option String),
      (get_sport_settings_requests aid st).length ≤ 1)
    ∧ (∀ aid : String, (get_training_plan_requests aid).length ≤ 1)
    ∧ (∀ aid sd ed : String, (list_seasons_requests aid sd ed).length ≤ 1)
    ∧ (∀ (aid n sd : String) (e d c : Option String),
      (create_season_requests aid n sd e d c).length ≤ 1)
    ∧ (∀ (aid ev : String) (n sd ed d c : Option String),
      (update_season_requests aid ev n sd ed d c).length ≤ 1)
    ∧ (∀ (aid : String) (w : Val),
      (create_bulk_workouts_requests aid w).length ≤ 1)
    ∧ (∀ u m : String, (event_tool_requests u m).length ≤ 1)
    ∧ (∀ (aid : String) (evs : List Obj),
      (create_bulk_events_requests aid evs).length ≤ 1) := by
  refine ⟨get_activities_requests_le_two, ?_, ?_, ?_, ?_, ?_, ?_, ?_, ?_, ?_,
    ?_, ?_, ?_, ?_, ?_, ?_, ?_, ?_, ?_, ?_, ?_, ?_, ?_, ?_, ?_⟩
  · intro aid sd ed r
    simp [get_wellness_data_requests_eq_one]
  · intro aid r
    simp [list_workouts_requests_eq_one]
  · intro aid r
    simp [list_folders_requests_eq_one]
  · intro aid q lim r
    simp [search_activities_requests_eq_one]
  · intro aid dur imin imax it reps lim
    simp [search_intervals_requests]
  · exact create_custom_item_requests_le_one
  · exact update_custom_item_requests_le_one
  · intro aid; simp [get_custom_items_requests]
  · intro aid i; simp [get_custom_item_by_id_requests]
  · intro aid i; simp [delete_custom_item_requests]
  · intro act; simp [get_activity_details_requests]
  · intro act; simp [get_activity_intervals_requests]
  · intro act t; simp [get_activity_streams_requests]
  · intro act; simp [get_activity_messages_requests]
  · intro act c; simp [add_activity_message_requests]
  · intro aid; simp [get_athlete_requests]
  · intro aid st; simp [get_sport_settings_requests]
  · intro aid; simp [get_training_plan_requests]
  · intro aid sd ed; simp [list_seasons_requests]
  · intro aid n sd e d c; simp [create_season_requests]
  · intro aid ev n sd ed d c; simp [update_season_requests]
  · intro aid w
    unfold create_bulk_workouts_requests
    split <;> simp
  · intro u m; simp [event_tool_requests]
  · intro aid evs
    unfold create_bulk_events_requests
    split <;> simp
